import Mathlib

/-!
Verification of the GeoJSON-manipulation core of the Spatial-Analysis-with-Python
repository (file `assignment2019.py`).

The Python code is dynamically typed: every GeoJSON-like structure is a plain
dictionary and every operation on it can raise.  We therefore embed the code
over a dynamic value type `PyVal` (strings, ints, floats, booleans, None,
lists, tuples and string-keyed dictionaries), with Python floats modelled as
rationals.  Subscripting, `in`-containment, `.items()`, addition, iteration and
truthiness are given as `Except`-valued operations mirroring CPython semantics
(KeyError, TypeError, IndexError, AttributeError, ValueError).

Calls into the shapely geometry library (`shape`, `mapping`, `cascaded_union`,
`.bounds`, `.centroid`, `.x`, `.y`) are modelled by a parameter structure
`GeomLib`, and the geocoding service by a parameter structure `Geocoder`; the
embedded functions are proved correct for every instantiation of these
parameters.  File-system effects (fiona shapefile records, the JSON cache
write) are made explicit in the return values.

Each of the four core functions wraps its body in `try/except Exception`,
prints the exception and calls `quit()`.  The outcome type `PyOutcome`
distinguishes a normal return (`ok`), an exception caught by that handler
(`quit`, carrying the printed exception) and an exception escaping the
function uncaught (`raised`).
-/

/-- Dynamic Python value.  Dictionary keys are strings, which covers every
dictionary the embedded code builds or reads.  Floats are modelled as
rationals. -/
inductive PyVal where
  | vStr (s : String)
  | vInt (n : Int)
  | vFloat (q : ℚ)
  | vBool (b : Bool)
  | vNone
  | vList (xs : List PyVal)
  | vTuple (xs : List PyVal)
  | vDict (entries : List (String × PyVal))
  deriving Repr

/-- Python exception, restricted to the kinds the embedded code can raise. -/
inductive PyErr where
  | keyError (k : String)
  | typeError (msg : String)
  | indexError
  | attributeError (a : String)
  | valueError (msg : String)
  deriving Repr, DecidableEq

/-- Outcome of one of the four core functions: normal return, exception caught
by the generic `except` handler (printed, then `quit()`), or exception escaping
the function uncaught. -/
inductive PyOutcome (α : Type) where
  | ok (a : α)
  | quit (e : PyErr)
  | raised (e : PyErr)
  deriving Repr

/-- Runs a fallible body under a `try/except Exception: print(e); quit()`
wrapper: an inner exception becomes `PyOutcome.quit`. -/
def runGuarded {α : Type} : Except PyErr α → PyOutcome α
  | .ok a => .ok a
  | .error e => .quit e

namespace PyVal

/-- Python class name of a value, as produced by `str(type(v)).split(chr(39))[1]`. -/
def typeName : PyVal → String
  | .vStr _ => "str"
  | .vInt _ => "int"
  | .vFloat _ => "float"
  | .vBool _ => "bool"
  | .vNone => "NoneType"
  | .vList _ => "list"
  | .vTuple _ => "tuple"
  | .vDict _ => "dict"

/-- Python truthiness. -/
def truthy : PyVal → Bool
  | .vStr s => !s.isEmpty
  | .vInt n => n != 0
  | .vFloat q => q != 0
  | .vBool b => b
  | .vNone => false
  | .vList xs => !xs.isEmpty
  | .vTuple xs => !xs.isEmpty
  | .vDict es => !es.isEmpty

end PyVal

/-- First value stored under key `k`, Python-dictionary lookup on the entry
list (entry lists built by `dictSet` have unique keys, so the first match is
the match). -/
def dictGet? (es : List (String × PyVal)) (k : String) : Option PyVal :=
  (es.find? (fun kv => kv.1 == k)).map (fun kv => kv.2)

/-- Key-membership test of a Python dictionary. -/
def dictHas (es : List (String × PyVal)) (k : String) : Bool :=
  (dictGet? es k).isSome

/-- Python dictionary assignment `d[k] = v`: updates the first entry with key
`k` in place, or appends a new entry (insertion order is preserved). -/
def dictSet (es : List (String × PyVal)) (k : String) (v : PyVal) :
    List (String × PyVal) :=
  match es with
  | [] => [(k, v)]
  | (k0, v0) :: rest =>
    if k0 == k then (k0, v) :: rest else (k0, v0) :: dictSet rest k v

/-- List indexing with Python semantics: negative indices count from the end,
out-of-range raises IndexError. -/
def pyIndexList {α : Type} (xs : List α) (i : Int) : Except PyErr α :=
  let j : Int := if i < 0 then i + xs.length else i
  if h : 0 ≤ j ∧ j < xs.length then
    .ok (xs.get ⟨j.toNat, by omega⟩)
  else
    .error .indexError

/-- Python subscript `container[key]`.  Dictionaries take string keys
(KeyError when absent; an integer key is likewise absent since the embedded
dictionaries only hold string keys); lists and tuples take integers
(TypeError otherwise); every other container raises TypeError, in particular
subscripting a string with a string raises the CPython error
`string indices must be integers`. -/
def pyGet : PyVal → PyVal → Except PyErr PyVal
  | .vDict es, .vStr k =>
    match dictGet? es k with
    | some v => .ok v
    | none => .error (.keyError k)
  | .vDict _, _ => .error (.keyError "non-string key")
  | .vList xs, .vInt i => pyIndexList xs i
  | .vTuple xs, .vInt i => pyIndexList xs i
  | .vList _, _ => .error (.typeError "list indices must be integers")
  | .vTuple _, _ => .error (.typeError "tuple indices must be integers")
  | .vStr _, _ => .error (.typeError "string indices must be integers")
  | _, _ => .error (.typeError "object is not subscriptable")

mutual

/-- Structural equality on dynamic values, modelling Python `==` as exercised
by list membership tests. -/
def pyBeq : PyVal → PyVal → Bool
  | .vStr a, .vStr b => a == b
  | .vInt a, .vInt b => a == b
  | .vFloat a, .vFloat b => a == b
  | .vBool a, .vBool b => a == b
  | .vNone, .vNone => true
  | .vList xs, .vList ys => pyBeqList xs ys
  | .vTuple xs, .vTuple ys => pyBeqList xs ys
  | .vDict xs, .vDict ys => pyBeqEntries xs ys
  | _, _ => false

/-- Elementwise equality of value lists. -/
def pyBeqList : List PyVal → List PyVal → Bool
  | [], [] => true
  | x :: xs, y :: ys => pyBeq x y && pyBeqList xs ys
  | _, _ => false

/-- Entrywise equality of dictionary entry lists. -/
def pyBeqEntries : List (String × PyVal) → List (String × PyVal) → Bool
  | [], [] => true
  | (k1, v1) :: xs, (k2, v2) :: ys => k1 == k2 && pyBeq v1 v2 && pyBeqEntries xs ys
  | _, _ => false

end

/-- Helper for the substring test: does `nee` occur inside the character
list? -/
def charsContain (nee : List Char) : List Char → Bool
  | [] => nee.isEmpty
  | c :: t => nee.isPrefixOf (c :: t) || charsContain nee t

/-- Substring test: Python `needle in haystack` on strings. -/
def strContains (haystack needle : String) : Bool :=
  charsContain needle.data haystack.data

/-- Python `needle in container`.  On dictionaries it is key membership, on
strings substring search (TypeError unless the needle is a string), on lists
and tuples element membership; scalars raise TypeError. -/
def pyContains (container needle : PyVal) : Except PyErr Bool :=
  match container, needle with
  | .vDict es, .vStr k => .ok (dictHas es k)
  | .vDict _, _ => .ok false
  | .vStr hay, .vStr nee => .ok (strContains hay nee)
  | .vStr _, _ =>
    .error (.typeError "in requires string as left operand")
  | .vList xs, v => .ok (xs.any (fun x => pyBeq x v))
  | .vTuple xs, v => .ok (xs.any (fun x => pyBeq x v))
  | _, _ => .error (.typeError "argument is not iterable")

/-- Python `.items()` on a value: the entry list of a dictionary, an
AttributeError on anything else. -/
def pyItems : PyVal → Except PyErr (List (String × PyVal))
  | .vDict es => .ok es
  | v => .error (.attributeError (PyVal.typeName v ++ " has no attribute items"))

/-- Python iteration `for x in v`: list and tuple elements, the characters of
a string, the keys of a dictionary; scalars raise TypeError. -/
def pyIterate : PyVal → Except PyErr (List PyVal)
  | .vList xs => .ok xs
  | .vTuple xs => .ok xs
  | .vStr s => .ok (s.data.map (fun c => .vStr (String.singleton c)))
  | .vDict es => .ok (es.map (fun kv => .vStr kv.1))
  | v => .error (.typeError (PyVal.typeName v ++ " object is not iterable"))

/-- Python addition as exercised by `merged_properties[k] += v` in
`merge_polys`: numeric values add (int plus float promotes to float), adding
a float to a string raises TypeError. -/
def pyAdd : PyVal → PyVal → Except PyErr PyVal
  | .vInt a, .vInt b => .ok (.vInt (a + b))
  | .vInt a, .vFloat b => .ok (.vFloat (a + b))
  | .vFloat a, .vInt b => .ok (.vFloat (a + b))
  | .vFloat a, .vFloat b => .ok (.vFloat (a + b))
  | .vBool a, .vFloat b => .ok (.vFloat ((if a then 1 else 0) + b))
  | .vStr a, .vStr b => .ok (.vStr (a ++ b))
  | a, b =>
    .error (.typeError ("unsupported operand types " ++ PyVal.typeName a ++
      " and " ++ PyVal.typeName b))

/-- Stand-in for the decimal rendering of a Python float; it is only ever fed
to the external geocoder parameter. -/
def floatRepr (q : ℚ) : String := toString q

/-- Rendering used by `str()` and `format()`.  Strings render as themselves,
which is the only case the proved theorems rely on; the container cases are a
deterministic stand-in for the CPython repr. -/
def pyStr : PyVal → String
  | .vStr s => s
  | .vInt n => toString n
  | .vFloat q => floatRepr q
  | .vBool b => if b then "True" else "False"
  | .vNone => "None"
  | .vList _ => "<list>"
  | .vTuple _ => "<tuple>"
  | .vDict _ => "<dict>"

/-- Python `int(v)`: ints unchanged, floats truncated toward zero, strings
parsed (ValueError on failure), anything else TypeError. -/
def pyToInt : PyVal → Except PyErr Int
  | .vInt n => .ok n
  | .vFloat q => .ok (q.num.tdiv (q.den : Int))
  | .vBool b => .ok (if b then 1 else 0)
  | .vStr s =>
    match s.toInt? with
    | some n => .ok n
    | none => .error (.valueError ("invalid literal for int: " ++ s))
  | v => .error (.typeError ("int argument must be a string or a number, not " ++
      PyVal.typeName v))

/-- Python `len(v)` for sized values. -/
def pyLen : PyVal → Except PyErr Int
  | .vStr s => .ok s.length
  | .vList xs => .ok xs.length
  | .vTuple xs => .ok xs.length
  | .vDict es => .ok es.length
  | v => .error (.typeError (PyVal.typeName v ++ " has no len"))

/-- Interface of the shapely geometry library as used by the embedded code:
`shape` converts a GeoJSON-like geometry value to a library geometry,
`mapping` converts back, `cascadedUnion` models `shapely.ops.cascaded_union`
on a list of geometries, `bounds` models the `.bounds` attribute, `centroid`
the `.centroid` attribute and `x`, `y` the point coordinate accessors.  All
theorems hold for every instantiation. -/
structure GeomLib (G : Type) where
  shape : PyVal → G
  mapping : G → PyVal
  cascadedUnion : List G → G
  bounds : G → PyVal
  centroid : G → G
  x : G → ℚ
  y : G → ℚ

/-- Interface of the external geocoding service: called with the formatted
coordinate string and the integer CRS code, it returns a dynamic value (the
code then subscripts `body`, `result` and `display_name`) or fails. -/
structure Geocoder where
  geocode_location : String → Int → Except PyErr PyVal

/-- Filter loop of `merge_polys`: walks the feature list, keeps each feature
whose `properties` contain `filter_key` and whose value there contains
`filter_value` (Python `in`), and pairs the kept features with the shapely
geometries obtained from their `geometry` entries. -/
def selectMatching {G : Type} (L : GeomLib G) (fk fv : String) :
    List PyVal → Except PyErr (List PyVal × List G)
  | [] => .ok ([], [])
  | f :: rest => do
    let props ← pyGet f (.vStr "properties")
    let keyPresent ← pyContains props (.vStr fk)
    let m ← if keyPresent then do
        let v ← pyGet props (.vStr fk)
        pyContains v (.vStr fv)
      else pure false
    if m then do
      let geom ← pyGet f (.vStr "geometry")
      let tail ← selectMatching L fk fv rest
      pure (f :: tail.1, L.shape geom :: tail.2)
    else
      selectMatching L fk fv rest

/-- One aggregation step of `merge_polys` for a float item:
`merged_properties[k] += v` when the key exists (which can raise a
TypeError, e.g. adding a float to the string stored under the filter key),
plain assignment otherwise. -/
def addFloatStep (acc : List (String × PyVal)) (k : String) (q : ℚ) :
    Except PyErr (List (String × PyVal)) :=
  match dictGet? acc k with
  | some old => do
    let s ← pyAdd old (.vFloat q)
    pure (dictSet acc k s)
  | Option.none => pure (dictSet acc k (.vFloat q))

/-- Inner aggregation loop of `merge_polys` over the items of one feature:
every value of exact type float is folded in with `addFloatStep`; non-float
values, ints included, are skipped. -/
def addFloatItems : List (String × PyVal) → List (String × PyVal) →
    Except PyErr (List (String × PyVal))
  | acc, [] => .ok acc
  | acc, (k, v) :: rest =>
    match v with
    | .vFloat q => do
      let acc2 ← addFloatStep acc k q
      addFloatItems acc2 rest
    | _ => addFloatItems acc rest

/-- Outer aggregation loop of `merge_polys` over the filter-matching
features. -/
def addFloatProps : List (String × PyVal) → List PyVal →
    Except PyErr (List (String × PyVal))
  | acc, [] => .ok acc
  | acc, f :: rest => do
    let props ← pyGet f (.vStr "properties")
    let items ← pyItems props
    let acc2 ← addFloatItems acc items
    addFloatProps acc2 rest

/-- Embedding of `merge_polys(geojson, filter_key="", filter_value="")`.
The output template (including the lookup `geojson["crs"]`) is built before
the `try` block, so an exception there escapes the function as
`PyOutcome.raised`; everything else runs under the generic handler. -/
def merge_polys {G : Type} (L : GeomLib G) (geojson : PyVal)
    (filter_key : String := "") (filter_value : String := "") : PyOutcome PyVal :=
  match pyGet geojson (.vStr "crs") with
  | .error e => .raised e
  | .ok crsv =>
    runGuarded (do
      let fs ← pyGet geojson (.vStr "features")
      let feats ← pyIterate fs
      let matched ← selectMatching L filter_key filter_value feats
      let merged := L.cascadedUnion matched.2
      let bbox := L.bounds merged
      let props ← addFloatProps [(filter_key, .vStr filter_value)] matched.1
      let mergedFeature : PyVal := .vDict [("type", .vStr "feature"),
        ("id", .vInt 0), ("geometry", L.mapping merged),
        ("properties", .vDict props)]
      pure (.vDict [("type", .vStr "FeatureCollection"),
        ("features", .vList [mergedFeature]), ("crs", crsv), ("bbox", bbox)]))

/-- Embedding of `make_centroid(geojson)`: copies the crs, takes the centroid
of the shapely geometry of the first feature, geocodes it, and returns a
one-feature GeoJSON structure whose single property is the geocoded address
and whose bbox is the coordinate pair of the centroid.  The whole body runs
under the generic handler. -/
def make_centroid {G : Type} (L : GeomLib G) (gc : Geocoder) (geojson : PyVal) :
    PyOutcome PyVal :=
  runGuarded (do
    let crsv ← pyGet geojson (.vStr "crs")
    let fs ← pyGet geojson (.vStr "features")
    let f0 ← pyGet fs (.vInt 0)
    let geom ← pyGet f0 (.vStr "geometry")
    let cp := L.centroid (L.shape geom)
    let crsProps ← pyGet crsv (.vStr "properties")
    let codeV ← pyGet crsProps (.vStr "code")
    let code ← pyToInt codeV
    let res ← gc.geocode_location
      (floatRepr (L.x cp) ++ ", " ++ floatRepr (L.y cp)) code
    let resBody ← pyGet res (.vStr "body")
    let resResult ← pyGet resBody (.vStr "result")
    let dn ← pyGet resResult (.vStr "display_name")
    let feat : PyVal := .vDict [("type", .vStr "feature"), ("id", .vInt 0),
      ("geometry", L.mapping cp),
      ("properties", .vDict [("address", .vStr (pyStr dn))])]
    pure (.vDict [("type", .vStr "FeatureCollection"), ("features", .vList [feat]),
      ("crs", crsv), ("bbox", .vTuple [.vFloat (L.x cp), .vFloat (L.y cp)])]))

/-- Result of the fiona shapefile write performed by `geojson_to_shp`: the
geometry type and property schema passed to `fiona.open`, the CRS code used
for `from_epsg`, and the records written by `fh.write` in order. -/
structure ShpFile where
  geometryType : PyVal
  schema : List (String × String)
  crsCode : PyVal
  records : List PyVal
  deriving Repr

/-- Schema assignment `my_schema[k] = t` (OrderedDict update-or-append). -/
def schemaSet (sch : List (String × String)) (k t : String) :
    List (String × String) :=
  match sch with
  | [] => [(k, t)]
  | (k0, t0) :: rest =>
    if k0 == k then (k0, t) :: rest else (k0, t0) :: schemaSet rest k t

/-- Schema inference loop of `geojson_to_shp`: walks the items of the first
feature and records the keys whose values have Python type str, int or
float, mapped to that type name. -/
def buildSchema (items : List (String × PyVal)) : List (String × String) :=
  items.foldl
    (fun sch kv =>
      if PyVal.typeName kv.2 == "str" || PyVal.typeName kv.2 == "int" ||
          PyVal.typeName kv.2 == "float" then
        schemaSet sch kv.1 (PyVal.typeName kv.2)
      else sch)
    []

/-- Key-membership test in the inferred schema (`k in my_schema`). -/
def schemaHas (sch : List (String × String)) (k : String) : Bool :=
  sch.any (fun kv => kv.1 == k)

/-- Property-copy loop of `geojson_to_shp`: the outgoing feature keeps the
items whose key is in the schema and drops everything else. -/
def filterProps (sch : List (String × String))
    (items : List (String × PyVal)) : List (String × PyVal) :=
  items.foldl
    (fun acc kv => if schemaHas sch kv.1 then dictSet acc kv.1 kv.2 else acc)
    []

/-- Writing loop of `geojson_to_shp`: each feature is rebuilt as a skeleton
with its `id` and `geometry` and only the schema-key properties, and written
to the shapefile handle. -/
def writeRecords (sch : List (String × String)) :
    List PyVal → Except PyErr (List PyVal)
  | [] => .ok []
  | f :: rest => do
    let fid ← pyGet f (.vStr "id")
    let geom ← pyGet f (.vStr "geometry")
    let props ← pyGet f (.vStr "properties")
    let items ← pyItems props
    let outgoing : PyVal := .vDict [("type", .vStr "Feature"), ("id", fid),
      ("geometry", geom), ("properties", .vDict (filterProps sch items))]
    let tail ← writeRecords sch rest
    pure (outgoing :: tail)

/-- Embedding of `geojson_to_shp(geojson, shapefile)`.  The Python function
returns None and its observable behaviour is the shapefile it writes, so the
embedding returns the written `ShpFile`.  The whole body runs under the
generic handler. -/
def geojson_to_shp (geojson : PyVal) : PyOutcome ShpFile :=
  runGuarded (do
    let crsObj ← pyGet geojson (.vStr "crs")
    let crsProps ← pyGet crsObj (.vStr "properties")
    let crsCode ← pyGet crsProps (.vStr "code")
    let fs ← pyGet geojson (.vStr "features")
    let f0 ← pyGet fs (.vInt 0)
    let props0 ← pyGet f0 (.vStr "properties")
    let items0 ← pyItems props0
    let sch := buildSchema items0
    let geom0 ← pyGet f0 (.vStr "geometry")
    let gt ← pyGet geom0 (.vStr "type")
    let feats ← pyIterate fs
    let records ← writeRecords sch feats
    pure ⟨gt, sch, crsCode, records⟩)

/-- JSON string escaping for one character (quote, backslash and the common
control characters). -/
def jsonEscapeChar (c : Char) : String :=
  if c = '\"' then "\\\""
  else if c = '\\' then "\\\\"
  else if c = '\n' then "\\n"
  else if c = '\t' then "\\t"
  else if c = '\r' then "\\r"
  else String.singleton c

/-- JSON string escaping. -/
def jsonEscape (s : String) : String :=
  String.join (s.data.map jsonEscapeChar)

mutual

/-- Deterministic embedding of `json.dumps` with CPython default separators;
tuples serialize as arrays. -/
def pyJsonDumps : PyVal → String
  | .vStr s => "\"" ++ jsonEscape s ++ "\""
  | .vInt n => toString n
  | .vFloat q => floatRepr q
  | .vBool b => if b then "true" else "false"
  | .vNone => "null"
  | .vList xs => "[" ++ pyJsonDumpsList xs ++ "]"
  | .vTuple xs => "[" ++ pyJsonDumpsList xs ++ "]"
  | .vDict es => "\x7b" ++ pyJsonDumpsEntries es ++ "\x7d"

/-- Serialization of array elements, comma separated. -/
def pyJsonDumpsList : List PyVal → String
  | [] => ""
  | [x] => pyJsonDumps x
  | x :: y :: rest => pyJsonDumps x ++ ", " ++ pyJsonDumpsList (y :: rest)

/-- Serialization of object entries, comma separated. -/
def pyJsonDumpsEntries : List (String × PyVal) → String
  | [] => ""
  | [(k, v)] => "\"" ++ jsonEscape k ++ "\": " ++ pyJsonDumps v
  | (k, v) :: e :: rest =>
    "\"" ++ jsonEscape k ++ "\": " ++ pyJsonDumps v ++ ", " ++
      pyJsonDumpsEntries (e :: rest)

end

/-- Splitting accumulator: the pieces of the character list cut at every
occurrence of the separator. -/
def splitCharsAux (c : Char) : List Char → List Char → List (List Char)
  | [], acc => [acc.reverse]
  | x :: xs, acc =>
    if x = c then acc.reverse :: splitCharsAux c xs []
    else splitCharsAux c xs (x :: acc)

/-- Python `s.split(c)` for a one-character separator (every separator the
code uses is one character: slash, dot, colon). -/
def splitOnChar (c : Char) (s : String) : List String :=
  (splitCharsAux c s.data []).map (fun cs => String.mk cs)

/-- Decimal digit value of a character, if any. -/
def decDigit? (c : Char) : Option Nat :=
  if 48 ≤ c.toNat && c.toNat ≤ 57 then some (c.toNat - 48) else Option.none

/-- Value of a digit string, left to right. -/
def digitsVal? (acc : Nat) : List Char → Option Nat
  | [] => some acc
  | c :: cs =>
    match decDigit? c with
    | some d => digitsVal? (acc * 10 + d) cs
    | Option.none => Option.none

/-- Python `int(s)` on a string: an optional minus sign followed by decimal
digits; anything else raises ValueError. -/
def pyStrToInt (s : String) : Except PyErr Int :=
  match s.data with
  | [] => .error (.valueError ("invalid literal for int: " ++ s))
  | c :: rest =>
    if c = '-' then
      match rest with
      | [] => .error (.valueError ("invalid literal for int: " ++ s))
      | _ =>
        match digitsVal? 0 rest with
        | some n => .ok (-(n : Int))
        | Option.none => .error (.valueError ("invalid literal for int: " ++ s))
    else
      match digitsVal? 0 (c :: rest) with
      | some n => .ok (n : Int)
      | Option.none => .error (.valueError ("invalid literal for int: " ++ s))

/-- Contents handed to `shp_to_geojson` by the fiona shapefile handle: the
value of `fh.crs["init"]` (for example `epsg:4326`), the `fh.bounds` value
and the feature records in iteration order. -/
structure FionaSource where
  crsInit : String
  bounds : PyVal
  features : List PyVal

/-- Embedding of `shp_to_geojson(shapefile)` given the fiona source contents.
It returns the GeoJSON-like structure together with the list of file writes
performed (path paired with written text): on success exactly one write, of
the JSON serialization of the result, to `.cache/<base>.json` where `<base>`
is the second-to-last dot-separated piece of the last slash-separated piece
of the shapefile name.  The body after the template runs under the generic
handler. -/
def shp_to_geojson (src : FionaSource) (shapefile : String) :
    PyOutcome (PyVal × List (String × String)) :=
  runGuarded (do
    let codePiece ← pyIndexList (splitOnChar ':' src.crsInit) 1
    let code ← pyStrToInt codePiece
    let geojson : PyVal := .vDict [("type", .vStr "FeatureCollection"),
      ("features", .vList src.features),
      ("crs", .vDict [("type", .vStr "EPSG"),
        ("properties", .vDict [("code", .vInt code)])]),
      ("bbox", src.bounds)]
    let output ← pyIndexList (splitOnChar '/' shapefile) (-1)
    let base ← pyIndexList (splitOnChar '.' output) (-2)
    pure (geojson, [(".cache/" ++ base ++ ".json", pyJsonDumps geojson)]))

/-- Single-quote character as a string (chr(39)). -/
def sQuote : String := String.singleton (Char.ofNat 39)

/-- Bytes left unescaped by `urllib.parse.quote` with the default
`safe="/"` argument: ASCII letters, digits, underscore, dot, hyphen, tilde
and the slash. -/
def isUrlSafeByte (b : UInt8) : Bool :=
  (65 ≤ b.toNat && b.toNat ≤ 90) || (97 ≤ b.toNat && b.toNat ≤ 122) ||
    (48 ≤ b.toNat && b.toNat ≤ 57) || b.toNat == 95 || b.toNat == 46 ||
    b.toNat == 45 || b.toNat == 126 || b.toNat == 47

/-- Uppercase hexadecimal digit. -/
def hexDigit (n : Nat) : Char :=
  if n < 10 then Char.ofNat (48 + n) else Char.ofNat (55 + n)

/-- Percent-escape of one byte. -/
def byteHex (b : UInt8) : String :=
  "%" ++ String.singleton (hexDigit (b.toNat / 16)) ++
    String.singleton (hexDigit (b.toNat % 16))

/-- Embedding of `urllib.parse.quote(s)` with its default safe characters,
over the UTF-8 bytes of the string. -/
def urlQuote (s : String) : String :=
  String.join (s.toUTF8.toList.map (fun b =>
    if isUrlSafeByte b then String.singleton (Char.ofNat b.toNat) else byteHex b))

/-- One CQL LIKE clause, `<fp> LIKE "%<fv>%"` with single quotes. -/
def likeClause (fp fv : String) : String :=
  fp ++ " LIKE " ++ sQuote ++ "%" ++ fv ++ "%" ++ sQuote

/-- Loop of `get_geojson` over `range(1, len(params["filter_values"]))`,
appending `OR <fp> LIKE "%<fv_i>%"` for each further filter value; the two
subscripts of `params` are re-evaluated on every iteration. -/
def filterRestLoop (params : PyVal) : List Int → String → Except PyErr String
  | [], acc => .ok acc
  | i :: rest, acc => do
    let fp ← pyGet params (.vStr "filter_property")
    let fvs ← pyGet params (.vStr "filter_values")
    let fvi ← pyGet fvs (.vInt i)
    filterRestLoop params rest
      (acc ++ "OR " ++ likeClause (pyStr fp) (pyStr fvi))

/-- The srsName segment computation of `get_geojson`: when the `srs_code`
key is present and its value truthy, the epsg segment, otherwise empty. -/
def srsSegment (params : PyVal) : Except PyErr String := do
  let srsIn ← pyContains params (.vStr "srs_code")
  if srsIn then do
    let v ← pyGet params (.vStr "srs_code")
    if v.truthy then pure ("&srsName=epsg:" ++ pyStr v) else pure ""
  else pure ""

/-- The PROPERTYNAME segment computation of `get_geojson`: when the
`properties` key is present and its value truthy, each property is rendered
followed by a comma and the truthy `geom_field` value is appended. -/
def propertySegment (params : PyVal) : Except PyErr String := do
  let propsIn ← pyContains params (.vStr "properties")
  let propsCond ←
    if propsIn then do
      let pv ← pyGet params (.vStr "properties")
      pure (if pv.truthy then some pv else Option.none)
    else pure Option.none
  match propsCond with
  | some pv => do
    let items ← pyIterate pv
    let item_string := items.foldl (fun acc it => acc ++ pyStr it ++ ",") ""
    let gfIn ← pyContains params (.vStr "geom_field")
    let item_string2 ←
      if gfIn then do
        let gf ← pyGet params (.vStr "geom_field")
        if gf.truthy then pure (item_string ++ pyStr gf) else pure item_string
      else pure item_string
    pure ("&PROPERTYNAME=" ++ item_string2)
  | Option.none => pure ""

/-- The CQL_FILTER segment computation of `get_geojson`: the condition
evaluates `params["filter_values"]` (a KeyError when the key is absent) only
after finding `filter_property` present and truthy; when the condition
holds, the LIKE clauses are assembled and URL-encoded. -/
def filterSegment (params : PyVal) : Except PyErr String := do
  let fpIn ← pyContains params (.vStr "filter_property")
  let filterCond ←
    if fpIn then do
      let fp ← pyGet params (.vStr "filter_property")
      if fp.truthy then do
        let fvs ← pyGet params (.vStr "filter_values")
        pure (if fvs.truthy then some () else Option.none)
      else pure Option.none
    else pure Option.none
  match filterCond with
  | some _ => do
    let fp ← pyGet params (.vStr "filter_property")
    let fvs ← pyGet params (.vStr "filter_values")
    let fv0 ← pyGet fvs (.vInt 0)
    let firstClause := likeClause (pyStr fp) (pyStr fv0)
    let fvsAgain ← pyGet params (.vStr "filter_values")
    let n ← pyLen fvsAgain
    let idxs := ((List.range n.toNat).drop 1).map Int.ofNat
    let whole ← filterRestLoop params idxs firstClause
    pure ("&CQL_FILTER=" ++ urlQuote whole)
  | Option.none => pure ""

/-- Embedding of the URL-assembly part of `MyGUI.get_geojson(params)` (the
part before the HTTP request, which is outside the `try` block, so every
exception it raises escapes to the caller): ValueError when `host` or
`layer` is missing, then the WFS GetFeature base URL followed by the
optional srsName, PROPERTYNAME and CQL_FILTER segments, in that order.  The
subsequent HTTP GET and XML error handling are external I/O and are not
modelled. -/
def get_geojson (params : PyVal) : Except PyErr String := do
  let hostIn ← pyContains params (.vStr "host")
  if !hostIn then
    throw (.valueError ("Value for " ++ sQuote ++ "host" ++ sQuote ++ " required"))
  let layerIn ← pyContains params (.vStr "layer")
  if !layerIn then
    throw (.valueError ("Value for " ++ sQuote ++ "layer" ++ sQuote ++ " required"))
  let srs_text ← srsSegment params
  let property_text ← propertySegment params
  let filter_text ← filterSegment params
  let hostV ← pyGet params (.vStr "host")
  let layerV ← pyGet params (.vStr "layer")
  let url := "http://" ++ pyStr hostV ++
    "/geoserver/ows?service=WFS&version=1.0.0&request=GetFeature&typeName=" ++
    pyStr layerV ++ "&outputFormat=json"
  pure (url ++ srs_text ++ property_text ++ filter_text)

/-- Names of all attributes ever assigned with `self.<name> = ...` anywhere
in class MyGUI: the widget variables and frames from `__init__`, plus
`first_shp_geojson` (assigned in `get_jsonFile`) and `merged` (assigned in
`merge_from_shp`).  No method assigns `self.centroid`. -/
def myGUIAssignedAttrs : List String :=
  ["host_name", "layer_id", "srs_id", "property_id", "geom_id",
   "fproperty_id", "fvalue_id1", "fvalue_id2", "my_parent", "frame1",
   "tasks_frame", "log_frame", "log_text", "first_shp_geojson", "merged"]

/-- Python attribute access `self.<name>` on an instance whose assigned
attributes are given as an entry list: AttributeError when absent. -/
def selfAttr (attrs : List (String × PyVal)) (name : String) :
    Except PyErr PyVal :=
  match dictGet? attrs name with
  | some v => .ok v
  | Option.none => .error (.attributeError name)

/-- Line of eighty dashes plus newline, `"-" * 80 + "\n"`. -/
def dashRule : String := String.mk (List.replicate 80 '-') ++ "\n"

/-- Deterministic stand-in for `str(e)` on a caught exception. -/
def errText : PyErr → String
  | .keyError k => sQuote ++ k ++ sQuote
  | .typeError m => m
  | .indexError => "list index out of range"
  | .attributeError a =>
    "MyGUI object has no attribute " ++ sQuote ++ a ++ sQuote
  | .valueError m => m

/-- Embedding of `MyGUI.extract_points(self)` given the attribute entries of
the instance.  The method builds an unused template, then under `try` tests
`self.centroid` (attribute lookup, then truthiness); on any exception the
handler inserts a dashed rule, the formatted error line and another dashed
rule into the log widget and the method returns None; the successful path
inserts the two dashed rules and also returns None without doing anything
else.  The returned pair is (return value, log lines inserted). -/
def extract_points (attrs : List (String × PyVal)) : PyVal × List String :=
  match (do
      let c ← selfAttr attrs "centroid"
      if !c.truthy then
        throw (.valueError ("Couldn" ++ sQuote ++ "t find merged GeoJSON."))
      pure () : Except PyErr Unit) with
  | .ok _ => (.vNone, [dashRule, dashRule])
  | .error e =>
    (.vNone, [dashRule, "Ops there is an Error: " ++ errText e ++ "\n", dashRule])

/-- Pure counterpart of the filter test of `merge_polys` for well-formed
features: the feature is a dictionary whose `properties` entry is a
dictionary that has `fk` as a key with a string value containing `fv`. -/
def featureMatches (fk fv : String) (f : PyVal) : Bool :=
  match f with
  | .vDict fes =>
    match dictGet? fes "properties" with
    | some (.vDict es) =>
      match dictGet? es fk with
      | some (.vStr s) => strContains s fv
      | _ => false
    | _ => false
  | _ => false

/-- Geometry entry of a well-formed feature (vNone as a default keeps the
function total; the theorems only apply it where the entry exists). -/
def featureGeometry (f : PyVal) : PyVal :=
  match f with
  | .vDict fes =>
    match dictGet? fes "geometry" with
    | some g => g
    | _ => .vNone
  | _ => .vNone

/-- Entry list of the `properties` dictionary of a well-formed feature. -/
def featurePropEntries (f : PyVal) : List (String × PyVal) :=
  match f with
  | .vDict fes =>
    match dictGet? fes "properties" with
    | some (.vDict es) => es
    | _ => []
  | _ => []

/-- Well-formedness of one feature for the filter loop of `merge_polys`: its
`properties` entry is a dictionary, and every entry of that dictionary under
the filter key holds a string (so Python `in` is the substring test). -/
def featureFilterOk (fk : String) (f : PyVal) : Prop :=
  (∃ es, pyGet f (.vStr "properties") = .ok (.vDict es)) ∧
    (∀ v, (fk, v) ∈ featurePropEntries f → ∃ s, v = .vStr s)

/-- Float values stored under key `k` in an entry list, in order. -/
def itemFloats (k : String) (items : List (String × PyVal)) : List ℚ :=
  items.filterMap (fun kv =>
    match kv with
    | (k0, .vFloat q) => if k0 == k then some q else Option.none
    | _ => Option.none)

/-- Float values stored under key `k` in the properties of a feature (in
entry order). -/
def floatItemsAt (k : String) (f : PyVal) : List ℚ :=
  itemFloats k (featurePropEntries f)

/-- Accumulation of a list of floats onto an optional running value, the way
the aggregation loop of `merge_polys` does: nothing stays nothing when no
float arrives, otherwise the floats are summed onto the start value. -/
def optAccum (o : Option ℚ) (qs : List ℚ) : Option ℚ :=
  match o, qs with
  | o, [] => o
  | some q, qs => some (q + qs.sum)
  | Option.none, qs => some qs.sum

/-- Properties of the first feature of a GeoJSON-like result. -/
def firstFeatureProps (g : PyVal) : Except PyErr PyVal := do
  let fs ← pyGet g (.vStr "features")
  let f0 ← pyGet fs (.vInt 0)
  pyGet f0 (.vStr "properties")

/-- Schema predicted by the specification for an entry list: the entries
whose values have Python type str, int or float, each mapped to that type
name, in order. -/
def schemaSpec (es : List (String × PyVal)) : List (String × String) :=
  (es.filter (fun kv => PyVal.typeName kv.2 == "str" ||
    PyVal.typeName kv.2 == "int" || PyVal.typeName kv.2 == "float")).map
    (fun kv => (kv.1, PyVal.typeName kv.2))

/-- Id entry of a well-formed feature. -/
def featureId (f : PyVal) : PyVal :=
  match f with
  | .vDict fes =>
    match dictGet? fes "id" with
    | some v => v
    | _ => .vNone
  | _ => .vNone

/-- Record predicted by the specification for one written feature: skeleton
with the feature id and geometry, and only the schema-key properties. -/
def recordSpec (sch : List (String × String)) (f : PyVal) : PyVal :=
  .vDict [("type", .vStr "Feature"), ("id", featureId f),
    ("geometry", featureGeometry f),
    ("properties", .vDict ((featurePropEntries f).filter
      (fun kv => schemaHas sch kv.1)))]

/-- Structured parameter record for `get_geojson`, mirroring the PARAMS
dictionary built in `MyGUI.__init__` (all seven keys present). -/
structure WfParams where
  host : String
  layer : String
  srs_code : PyVal
  properties : List PyVal
  geom_field : PyVal
  filter_property : PyVal
  filter_values : List PyVal

/-- Dictionary encoding of a structured parameter record, in the key order
of the PARAMS dictionary of the source. -/
def encodeParams (p : WfParams) : PyVal :=
  .vDict [("host", .vStr p.host), ("layer", .vStr p.layer),
    ("srs_code", p.srs_code), ("properties", .vList p.properties),
    ("geom_field", p.geom_field), ("filter_property", p.filter_property),
    ("filter_values", .vList p.filter_values)]

/-- Fixed WFS GetFeature base URL for a host and layer, as the specification
words it. -/
def specBaseUrl (p : WfParams) : String :=
  "http://" ++ p.host ++
    "/geoserver/ows?service=WFS&version=1.0.0&request=GetFeature&typeName=" ++
    p.layer ++ "&outputFormat=json"

/-- The srsName segment, present exactly when the srs code is truthy. -/
def specSrsSegment (p : WfParams) : String :=
  if p.srs_code.truthy then "&srsName=epsg:" ++ pyStr p.srs_code else ""

/-- The PROPERTYNAME segment, present exactly when the property list is
nonempty: each property followed by a comma, then the geometry field when
that is truthy. -/
def specPropertySegment (p : WfParams) : String :=
  if p.properties.isEmpty then ""
  else
    "&PROPERTYNAME=" ++
      p.properties.foldl (fun acc it => acc ++ pyStr it ++ ",") "" ++
      (if p.geom_field.truthy then pyStr p.geom_field else "")

/-- The OR LIKE clauses appended for the filter values after the first. -/
def orClauses (fp : String) : List PyVal → String
  | [] => ""
  | w :: rest => "OR " ++ likeClause fp (pyStr w) ++ orClauses fp rest

/-- The raw CQL filter text: a LIKE clause for the first filter value and an
OR LIKE clause for each further one. -/
def specCqlText (fp : String) : List PyVal → String
  | [] => ""
  | v :: rest => likeClause fp (pyStr v) ++ orClauses fp rest

/-- The CQL_FILTER segment, present exactly when the filter property and the
filter value list are both truthy, URL-encoded. -/
def specFilterSegment (p : WfParams) : String :=
  if p.filter_property.truthy && !p.filter_values.isEmpty then
    "&CQL_FILTER=" ++ urlQuote (specCqlText (pyStr p.filter_property) p.filter_values)
  else ""

/-- Trivial geometry-library instance used to evaluate the theorems on
concrete inputs: geometries are carried as their GeoJSON values, union
collects the list, bounds wraps it in a tuple. -/
def testLib : GeomLib PyVal where
  shape := fun v => v
  mapping := fun v => v
  cascadedUnion := fun gs => .vList gs
  bounds := fun g => .vTuple [g]
  centroid := fun g => g
  x := fun _ => 1
  y := fun _ => 2

/-- Constant geocoder instance used to evaluate the theorems on concrete
inputs. -/
def testGeocoder : Geocoder where
  geocode_location := fun _ _ => .ok (.vDict [("body", .vDict [("result",
    .vDict [("display_name", .vStr "Somewhere, Ireland")])])])

/-- Features of the concrete FeatureCollection used to evaluate the
theorems: two match (countyname, Cork), one matches (countyname, Dublin);
each carries a float `area` and an int `pop` property. -/
def sampleFeatures : List PyVal := [
  .vDict [("type", .vStr "Feature"), ("id", .vInt 1),
    ("geometry", .vDict [("type", .vStr "Polygon"), ("coordinates", .vList [])]),
    ("properties", .vDict [("countyname", .vStr "Cork City"),
      ("area", .vFloat 2), ("pop", .vInt 5)])],
  .vDict [("type", .vStr "Feature"), ("id", .vInt 2),
    ("geometry", .vDict [("type", .vStr "Polygon"),
      ("coordinates", .vList [.vInt 7])]),
    ("properties", .vDict [("countyname", .vStr "Cork County"),
      ("area", .vFloat 3), ("pop", .vInt 6)])],
  .vDict [("type", .vStr "Feature"), ("id", .vInt 3),
    ("geometry", .vDict [("type", .vStr "Polygon"), ("coordinates", .vList [])]),
    ("properties", .vDict [("countyname", .vStr "Dublin"),
      ("area", .vFloat 4), ("pop", .vInt 7)])]]

/-- Concrete three-feature FeatureCollection built over `sampleFeatures`. -/
def sampleFC : PyVal := .vDict [
  ("type", .vStr "FeatureCollection"),
  ("features", .vList sampleFeatures),
  ("crs", .vDict [("type", .vStr "EPSG"),
    ("properties", .vDict [("code", .vInt 29902)])]),
  ("bbox", .vList [])]

/-- Concrete two-feature input for the C2 counterexample: both features
match the filter pair (name, Dub) and carry an int `pop` property with
values 5 and 6 and no float property. -/
def c2In : PyVal := .vDict [
  ("type", .vStr "FeatureCollection"),
  ("features", .vList [
    .vDict [("type", .vStr "Feature"), ("id", .vInt 1),
      ("geometry", .vDict [("type", .vStr "Polygon"), ("coordinates", .vInt 1)]),
      ("properties", .vDict [("name", .vStr "Dublin City"), ("pop", .vInt 5)])],
    .vDict [("type", .vStr "Feature"), ("id", .vInt 2),
      ("geometry", .vDict [("type", .vStr "Polygon"), ("coordinates", .vInt 2)]),
      ("properties", .vDict [("name", .vStr "Dublin County"), ("pop", .vInt 6)])]]),
  ("crs", .vDict [("type", .vStr "EPSG"),
    ("properties", .vDict [("code", .vInt 29902)])]),
  ("bbox", .vList [])]

/-- Result of `merge_polys` on `c2In` with filter (name, Dub) under
`testLib`: the merged feature keeps only the filter pair; the int `pop`
properties of the two matching features are not aggregated, although the
claim predicts an entry mapping `pop` to 11. -/
def c2Out : PyVal := .vDict [
  ("type", .vStr "FeatureCollection"),
  ("features", .vList [
    .vDict [("type", .vStr "feature"), ("id", .vInt 0),
      ("geometry", .vList [
        .vDict [("type", .vStr "Polygon"), ("coordinates", .vInt 1)],
        .vDict [("type", .vStr "Polygon"), ("coordinates", .vInt 2)]]),
      ("properties", .vDict [("name", .vStr "Dub")])]]),
  ("crs", .vDict [("type", .vStr "EPSG"),
    ("properties", .vDict [("code", .vInt 29902)])]),
  ("bbox", .vTuple [.vList [
    .vDict [("type", .vStr "Polygon"), ("coordinates", .vInt 1)],
    .vDict [("type", .vStr "Polygon"), ("coordinates", .vInt 2)]]])]

/-- Result of `merge_polys` on `sampleFC` with filter (countyname, Dublin)
under `testLib`: one matching feature, its float `area` copied, its int
`pop` dropped. -/
def sampleMergedOut : PyVal := .vDict [
  ("type", .vStr "FeatureCollection"),
  ("features", .vList [
    .vDict [("type", .vStr "feature"), ("id", .vInt 0),
      ("geometry", .vList [
        .vDict [("type", .vStr "Polygon"), ("coordinates", .vList [])]]),
      ("properties", .vDict [("countyname", .vStr "Dublin"),
        ("area", .vFloat 4)])]]),
  ("crs", .vDict [("type", .vStr "EPSG"),
    ("properties", .vDict [("code", .vInt 29902)])]),
  ("bbox", .vTuple [.vList [
    .vDict [("type", .vStr "Polygon"), ("coordinates", .vList [])]]])]

/-- Boolean well-formedness of one feature for the filter loop of
`merge_polys`: the feature is a dictionary whose `properties` entry is a
dictionary in which every entry under the filter key holds a string. -/
def featureFilterOkB (fk : String) : PyVal → Bool
  | .vDict fes =>
    match dictGet? fes "properties" with
    | some (.vDict es) =>
      es.all (fun kv => !(kv.1 == fk) ||
        (match kv.2 with | .vStr _ => true | _ => false))
    | _ => false
  | _ => false

/-- Does the feature dictionary carry a `geometry` entry? -/
def hasGeometryB : PyVal → Bool
  | .vDict fes => dictHas fes "geometry"
  | _ => false

/-- Boolean well-formedness of a feature list for `merge_polys`: every
feature passes `featureFilterOkB` and every filter-matching feature has a
geometry entry. -/
def mergeInputOkB (fk fv : String) (feats : List PyVal) : Bool :=
  feats.all (fun f => featureFilterOkB fk f &&
    (!featureMatches fk fv f || hasGeometryB f))

/-- Float stored under key `k` in the accumulated properties, if any. -/
def accFloat? (acc : List (String × PyVal)) (k : String) : Option ℚ :=
  match dictGet? acc k with
  | some (.vFloat q) => some q
  | _ => Option.none

/-- Shapely geometries of the filter-matching features, in order. -/
def matchedGeoms {G : Type} (L : GeomLib G) (fk fv : String)
    (feats : List PyVal) : List G :=
  (feats.filter (featureMatches fk fv)).map (fun f => L.shape (featureGeometry f))

/-- Shape of the `merge_polys` output: a one-feature FeatureCollection whose
feature carries the mapped merged geometry and the aggregated properties,
the input crs and the bounds of the merged geometry. -/
def mergeResult {G : Type} (L : GeomLib G) (crsv : PyVal) (merged : G)
    (props : List (String × PyVal)) : PyVal :=
  .vDict [("type", .vStr "FeatureCollection"),
    ("features", .vList [.vDict [("type", .vStr "feature"), ("id", .vInt 0),
      ("geometry", L.mapping merged), ("properties", .vDict props)]]),
    ("crs", crsv), ("bbox", L.bounds merged)]


/-- Are the keys of an entry list pairwise distinct (as a Python dictionary
guarantees)? -/
def keysNodupB : List (String × PyVal) → Bool
  | [] => true
  | (k, _) :: rest => !(rest.any (fun kv => kv.1 == k)) && keysNodupB rest

/-- Well-formedness of one feature for the writing loop of
`geojson_to_shp`: a dictionary with `id` and `geometry` entries and a
`properties` dictionary with pairwise distinct keys. -/
def recordOkB : PyVal → Bool
  | .vDict fes =>
    dictHas fes "id" && dictHas fes "geometry" &&
      (match dictGet? fes "properties" with
       | some (.vDict es) => keysNodupB es
       | _ => false)
  | _ => false


/-- Dictionary encoding of a structured parameter record with the
`filter_values` key left out entirely (the GUI PARAMS dictionary always has
it; this encoding exhibits the lookup of a missing key). -/
def encodeParamsNoFV (p : WfParams) : PyVal :=
  .vDict [("host", .vStr p.host), ("layer", .vStr p.layer),
    ("srs_code", p.srs_code), ("properties", .vList p.properties),
    ("geom_field", p.geom_field), ("filter_property", p.filter_property)]


theorem except_bind_ok {α β : Type} (a : α) (f : α → Except PyErr β) :
    (Except.ok a >>= f) = f a := rfl

theorem except_bind_error {α β : Type} (e : PyErr) (f : α → Except PyErr β) :
    ((Except.error e : Except PyErr α) >>= f) = .error e := rfl

theorem bind_ok_inv {α β : Type} {m : Except PyErr α} {f : α → Except PyErr β}
    {b : β} (h : (m >>= f) = .ok b) : ∃ a, m = .ok a ∧ f a = .ok b := by
  cases m with
  | ok a => exact ⟨a, rfl, h⟩
  | error e => simp [except_bind_error] at h

theorem runGuarded_ok_inv {α : Type} {m : Except PyErr α} {a : α}
    (h : runGuarded m = .ok a) : m = .ok a := by
  cases m with
  | ok b => cases h; rfl
  | error e => simp [runGuarded] at h

theorem runGuarded_ne_raised {α : Type} (m : Except PyErr α) (e : PyErr) :
    runGuarded m ≠ .raised e := by
  cases m <;> simp [runGuarded]

theorem dictGet?_none_of_not_mem {es : List (String × PyVal)} {k : String}
    (h : ∀ kv ∈ es, kv.1 ≠ k) : dictGet? es k = Option.none := by
  induction es with
  | nil => rfl
  | cons kv rest ih =>
    have hk : (kv.1 == k) = false := by
      simpa using h kv (List.mem_cons_self kv rest)
    simp only [dictGet?, List.find?, hk]
    exact ih (fun kv' h' => h kv' (List.mem_cons_of_mem kv h'))

/-- C5: the attribute `centroid` is never assigned anywhere in class MyGUI,
so on any reachable instance state the attribute lookup in the `try` body of
`extract_points` raises AttributeError, the handler inserts the dashed rule,
the formatted error line and another dashed rule into the log widget, and
the method returns None without extracting any point. -/
theorem c5_extract_points_dead :
    ("centroid" ∉ myGUIAssignedAttrs) ∧
    ∀ attrs : List (String × PyVal),
      (∀ kv ∈ attrs, kv.1 ∈ myGUIAssignedAttrs) →
      extract_points attrs = (PyVal.vNone,
        [dashRule,
         "Ops there is an Error: " ++ errText (PyErr.attributeError "centroid") ++ "\n",
         dashRule]) := by
  constructor
  · decide
  · intro attrs h
    have hnone : dictGet? attrs "centroid" = Option.none := by
      apply dictGet?_none_of_not_mem
      intro kv hm heq
      have : "centroid" ∈ myGUIAssignedAttrs := heq ▸ h kv hm
      revert this
      decide
    simp [extract_points, selfAttr, hnone, except_bind_error]

/-- Closed instance of `c5_extract_points_dead` on the empty attribute
state. -/
theorem c5_witness :
    extract_points [] = (PyVal.vNone,
      [dashRule,
       "Ops there is an Error: " ++ errText (PyErr.attributeError "centroid") ++ "\n",
       dashRule]) :=
  c5_extract_points_dead.2 [] (by intro kv h; cases h)

/-- C4 counterexample: the repository itself calls
`merge_polys(Source_file)` (in `merge_from_shp`) with the string
`data/uss.json` as the geojson argument; the output template built before
the `try` block subscripts that string with the string `crs`, and the
resulting TypeError escapes `merge_polys` uncaught (outcome `raised`, not
`quit`), contradicting the claim that every exception raised in the body is
caught generically and terminates the process. -/
theorem c4_counterexample :
    merge_polys testLib (PyVal.vStr "data/uss.json") =
      PyOutcome.raised (PyErr.typeError "string indices must be integers") := rfl

/-- C4 amended: in `geojson_to_shp`, `shp_to_geojson` and `make_centroid`
the whole body runs under the generic `except` handler, so no exception
escapes (no outcome is `raised`); in `merge_polys` the same holds provided
the `crs` lookup performed before the `try` block succeeds.  A caught
exception is printed and the process terminated by `quit()` (outcome
`quit`); no function retries or returns an error value. -/
theorem c4_guarded {G : Type} (L : GeomLib G) (gc : Geocoder)
    (src : FionaSource) (name : String) (g1 g3 g4 : PyVal) (fk fv : String)
    (e : PyErr) (h : (pyGet g4 (.vStr "crs")).isOk = true) :
    geojson_to_shp g1 ≠ .raised e ∧
    shp_to_geojson src name ≠ .raised e ∧
    make_centroid L gc g3 ≠ .raised e ∧
    merge_polys L g4 fk fv ≠ .raised e := by
  refine ⟨runGuarded_ne_raised _ e, runGuarded_ne_raised _ e,
    runGuarded_ne_raised _ e, ?_⟩
  unfold merge_polys
  cases hc : pyGet g4 (.vStr "crs") with
  | ok crsv => exact runGuarded_ne_raised _ e
  | error e2 => rw [hc] at h; simp [Except.isOk, Except.toBool] at h

/-- Closed instance of `c4_guarded` on concrete inputs. -/
theorem c4_witness :
    geojson_to_shp sampleFC ≠ PyOutcome.raised PyErr.indexError ∧
    shp_to_geojson ⟨"epsg:4326", PyVal.vList [], []⟩ "data/uss.shp" ≠
      PyOutcome.raised PyErr.indexError ∧
    make_centroid testLib testGeocoder sampleFC ≠
      PyOutcome.raised PyErr.indexError ∧
    merge_polys testLib sampleFC "countyname" "Cork" ≠
      PyOutcome.raised PyErr.indexError :=
  c4_guarded testLib testGeocoder ⟨"epsg:4326", PyVal.vList [], []⟩
    "data/uss.shp" sampleFC sampleFC sampleFC "countyname" "Cork"
    PyErr.indexError (by rfl)

theorem except_bind_assoc {α β γ : Type} (m : Except PyErr α)
    (f : α → Except PyErr β) (g : β → Except PyErr γ) :
    ((m >>= f) >>= g) = m >>= fun x => f x >>= g := by
  cases m <;> rfl

/-- C9: on every successful call, `shp_to_geojson` performs exactly one file
write before returning: the JSON serialization of the returned GeoJSON-like
structure, to `.cache/<base>.json`, where `<base>` is derived from the input
shapefile name (second-to-last dot piece of the last slash piece). -/
theorem c9_cache_write (src : FionaSource) (name : String) (g : PyVal)
    (ws : List (String × String))
    (h : shp_to_geojson src name = .ok (g, ws)) :
    ∃ output base,
      pyIndexList (splitOnChar '/' name) (-1) = .ok output ∧
      pyIndexList (splitOnChar '.' output) (-2) = .ok base ∧
      ws = [(".cache/" ++ base ++ ".json", pyJsonDumps g)] := by
  unfold shp_to_geojson at h
  have h' := runGuarded_ok_inv h
  obtain ⟨codePiece, h1, h'⟩ := bind_ok_inv h'
  obtain ⟨code, h2, h'⟩ := bind_ok_inv h'
  obtain ⟨output, h3, h'⟩ := bind_ok_inv h'
  obtain ⟨base, h4, h'⟩ := bind_ok_inv h'
  refine ⟨output, base, h3, h4, ?_⟩
  injection h' with h5
  injection h5 with hg hw
  subst hg
  subst hw
  rfl

/-- Closed instance of `c9_cache_write` on a concrete empty shapefile. -/
theorem c9_witness :
    ∃ output base,
      pyIndexList (splitOnChar '/' "data/uss.shp") (-1) = .ok output ∧
      pyIndexList (splitOnChar '.' output) (-2) = .ok base ∧
      [(".cache/uss.json",
        pyJsonDumps (PyVal.vDict [("type", PyVal.vStr "FeatureCollection"),
          ("features", PyVal.vList []),
          ("crs", PyVal.vDict [("type", PyVal.vStr "EPSG"),
            ("properties", PyVal.vDict [("code", PyVal.vInt 4326)])]),
          ("bbox", PyVal.vList [])]))] =
        [(".cache/" ++ base ++ ".json",
          pyJsonDumps (PyVal.vDict [("type", PyVal.vStr "FeatureCollection"),
            ("features", PyVal.vList []),
            ("crs", PyVal.vDict [("type", PyVal.vStr "EPSG"),
              ("properties", PyVal.vDict [("code", PyVal.vInt 4326)])]),
            ("bbox", PyVal.vList [])]))] :=
  c9_cache_write ⟨"epsg:4326", PyVal.vList [], []⟩ "data/uss.shp" _ _ (by rfl)

/-- C8: both `make_centroid` and `merge_polys` copy the crs object of their
input unchanged into their output: on every successful call, looking up
`crs` in the result gives exactly what looking up `crs` in the input
gives. -/
theorem c8_crs_preserved {G₁ G₂ : Type} (L₁ : GeomLib G₁) (L₂ : GeomLib G₂)
    (gc : Geocoder) (g₁ g₂ : PyVal) (fk fv : String) (o₁ o₂ : PyVal)
    (h₁ : make_centroid L₁ gc g₁ = .ok o₁)
    (h₂ : merge_polys L₂ g₂ fk fv = .ok o₂) :
    pyGet o₁ (.vStr "crs") = pyGet g₁ (.vStr "crs") ∧
    pyGet o₂ (.vStr "crs") = pyGet g₂ (.vStr "crs") := by
  constructor
  · unfold make_centroid at h₁
    have h := runGuarded_ok_inv h₁
    obtain ⟨crsv, hc, h⟩ := bind_ok_inv h
    obtain ⟨fs, _, h⟩ := bind_ok_inv h
    obtain ⟨f0, _, h⟩ := bind_ok_inv h
    obtain ⟨geom, _, h⟩ := bind_ok_inv h
    obtain ⟨crsProps, _, h⟩ := bind_ok_inv h
    obtain ⟨codeV, _, h⟩ := bind_ok_inv h
    obtain ⟨code, _, h⟩ := bind_ok_inv h
    obtain ⟨res, _, h⟩ := bind_ok_inv h
    obtain ⟨resBody, _, h⟩ := bind_ok_inv h
    obtain ⟨resResult, _, h⟩ := bind_ok_inv h
    obtain ⟨dn, _, h⟩ := bind_ok_inv h
    injection h with h5
    rw [← h5, hc]
    rfl
  · unfold merge_polys at h₂
    cases hc : pyGet g₂ (.vStr "crs") with
    | error e => rw [hc] at h₂; cases h₂
    | ok crsv =>
      rw [hc] at h₂
      have h := runGuarded_ok_inv h₂
      obtain ⟨fs, _, h⟩ := bind_ok_inv h
      obtain ⟨feats, _, h⟩ := bind_ok_inv h
      obtain ⟨matched, _, h⟩ := bind_ok_inv h
      obtain ⟨props, _, h⟩ := bind_ok_inv h
      injection h with h5
      rw [← h5]
      rfl

/-- Closed instance of `c8_crs_preserved` on concrete inputs. -/
theorem c8_witness :
    pyGet
      (PyVal.vDict [("type", PyVal.vStr "FeatureCollection"),
        ("features", PyVal.vList [PyVal.vDict [("type", PyVal.vStr "feature"),
          ("id", PyVal.vInt 0),
          ("geometry", PyVal.vDict [("type", PyVal.vStr "Polygon"),
            ("coordinates", PyVal.vList [])]),
          ("properties", PyVal.vDict [("address",
            PyVal.vStr "Somewhere, Ireland")])]]),
        ("crs", PyVal.vDict [("type", PyVal.vStr "EPSG"),
          ("properties", PyVal.vDict [("code", PyVal.vInt 29902)])]),
        ("bbox", PyVal.vTuple [PyVal.vFloat 1, PyVal.vFloat 2])])
      (.vStr "crs") = pyGet sampleFC (.vStr "crs") ∧
    pyGet sampleMergedOut (.vStr "crs") = pyGet sampleFC (.vStr "crs") :=
  c8_crs_preserved testLib testLib testGeocoder sampleFC sampleFC
    "countyname" "Dublin" _ sampleMergedOut (by rfl) (by rfl)

/-- C10: `make_centroid` reads only the crs object and the first feature of
its input: two inputs that agree on the `crs` lookup and on the composite
lookup `geojson["features"][0]` produce identical outcomes, so features
after the first have no effect on the returned centroid, address or
bbox. -/
theorem c10_first_feature_only {G : Type} (L : GeomLib G) (gc : Geocoder)
    (g₁ g₂ : PyVal)
    (hc : pyGet g₁ (.vStr "crs") = pyGet g₂ (.vStr "crs"))
    (hf : (pyGet g₁ (.vStr "features") >>= fun fs => pyGet fs (.vInt 0)) =
          (pyGet g₂ (.vStr "features") >>= fun fs => pyGet fs (.vInt 0))) :
    make_centroid L gc g₁ = make_centroid L gc g₂ := by
  unfold make_centroid
  cases h1 : pyGet g₁ (.vStr "crs") with
  | error e => rw [h1] at hc; rw [← hc]; rfl
  | ok crsv =>
    rw [h1] at hc
    rw [← hc]
    simp only [except_bind_ok]
    cases h2 : pyGet g₁ (.vStr "features") with
    | error e =>
      rw [h2] at hf
      simp only [except_bind_error] at hf
      cases h3 : pyGet g₂ (.vStr "features") with
      | error e2 =>
        rw [h3] at hf
        simp only [except_bind_error] at hf
        injection hf with he
        rw [he]
      | ok fs2 =>
        rw [h3] at hf
        simp only [except_bind_ok] at hf
        simp only [except_bind_error, except_bind_ok]
        rw [← hf]
        rfl
    | ok fs1 =>
      rw [h2] at hf
      simp only [except_bind_ok] at hf
      cases h3 : pyGet g₂ (.vStr "features") with
      | error e2 =>
        rw [h3] at hf
        simp only [except_bind_error] at hf
        simp only [except_bind_error, except_bind_ok]
        rw [hf]
        rfl
      | ok fs2 =>
        rw [h3] at hf
        simp only [except_bind_ok] at hf
        simp only [except_bind_ok]
        rw [hf]

/-- Closed instance of `c10_first_feature_only`: dropping the two features
after the first of `sampleFC` does not change the outcome. -/
theorem c10_witness :
    make_centroid testLib testGeocoder sampleFC =
    make_centroid testLib testGeocoder (PyVal.vDict [
      ("type", PyVal.vStr "FeatureCollection"),
      ("features", PyVal.vList [
        PyVal.vDict [("type", PyVal.vStr "Feature"), ("id", PyVal.vInt 1),
          ("geometry", PyVal.vDict [("type", PyVal.vStr "Polygon"),
            ("coordinates", PyVal.vList [])]),
          ("properties", PyVal.vDict [("countyname", PyVal.vStr "Cork City"),
            ("area", PyVal.vFloat 2), ("pop", PyVal.vInt 5)])]]),
      ("crs", PyVal.vDict [("type", PyVal.vStr "EPSG"),
        ("properties", PyVal.vDict [("code", PyVal.vInt 29902)])]),
      ("bbox", PyVal.vList [])]) :=
  c10_first_feature_only testLib testGeocoder _ _ (by rfl) (by rfl)

/-- C7: on every input whose crs and first-feature geometry are readable and
for which the geocoder answers with a body.result.display_name string,
`make_centroid` returns a new GeoJSON structure with exactly one feature
whose geometry is (the GeoJSON mapping of) the centroid point of the input
geometry, whose single property stores the display_name under the key
`address`, and whose bbox is the coordinate pair (x, y) of that centroid
point; the input crs is carried over. -/
theorem c7_make_centroid {G : Type} (L : GeomLib G) (gc : Geocoder)
    (g crsv fs f0 geomv crsProps codeV res resBody resResult : PyVal)
    (code : Int) (s : String)
    (h1 : pyGet g (.vStr "crs") = .ok crsv)
    (h2 : pyGet g (.vStr "features") = .ok fs)
    (h3 : pyGet fs (.vInt 0) = .ok f0)
    (h4 : pyGet f0 (.vStr "geometry") = .ok geomv)
    (h5 : pyGet crsv (.vStr "properties") = .ok crsProps)
    (h6 : pyGet crsProps (.vStr "code") = .ok codeV)
    (h7 : pyToInt codeV = .ok code)
    (h8 : gc.geocode_location
      (floatRepr (L.x (L.centroid (L.shape geomv))) ++ ", " ++
        floatRepr (L.y (L.centroid (L.shape geomv)))) code = .ok res)
    (h9 : pyGet res (.vStr "body") = .ok resBody)
    (h10 : pyGet resBody (.vStr "result") = .ok resResult)
    (h11 : pyGet resResult (.vStr "display_name") = .ok (.vStr s)) :
    make_centroid L gc g = .ok (.vDict [
      ("type", .vStr "FeatureCollection"),
      ("features", .vList [.vDict [("type", .vStr "feature"), ("id", .vInt 0),
        ("geometry", L.mapping (L.centroid (L.shape geomv))),
        ("properties", .vDict [("address", .vStr s)])]]),
      ("crs", crsv),
      ("bbox", .vTuple [.vFloat (L.x (L.centroid (L.shape geomv))),
        .vFloat (L.y (L.centroid (L.shape geomv)))])]) := by
  unfold make_centroid
  rw [h1]
  simp only [except_bind_ok]
  rw [h2]
  simp only [except_bind_ok]
  rw [h3]
  simp only [except_bind_ok]
  rw [h4]
  simp only [except_bind_ok]
  rw [h5]
  simp only [except_bind_ok]
  rw [h6]
  simp only [except_bind_ok]
  rw [h7]
  simp only [except_bind_ok]
  rw [h8]
  simp only [except_bind_ok]
  rw [h9]
  simp only [except_bind_ok]
  rw [h10]
  simp only [except_bind_ok]
  rw [h11]
  simp only [except_bind_ok]
  rfl

/-- Closed instance of `c7_make_centroid` on `sampleFC` with the constant
test geocoder. -/
theorem c7_witness :
    make_centroid testLib testGeocoder sampleFC = .ok (PyVal.vDict [
      ("type", PyVal.vStr "FeatureCollection"),
      ("features", PyVal.vList [PyVal.vDict [
        ("type", PyVal.vStr "feature"), ("id", PyVal.vInt 0),
        ("geometry", PyVal.vDict [("type", PyVal.vStr "Polygon"),
          ("coordinates", PyVal.vList [])]),
        ("properties", PyVal.vDict [("address",
          PyVal.vStr "Somewhere, Ireland")])]]),
      ("crs", PyVal.vDict [("type", PyVal.vStr "EPSG"),
        ("properties", PyVal.vDict [("code", PyVal.vInt 29902)])]),
      ("bbox", PyVal.vTuple [PyVal.vFloat 1, PyVal.vFloat 2])]) :=
  c7_make_centroid testLib testGeocoder sampleFC _ _ _ _ _ _ _ _ _ 29902
    "Somewhere, Ireland" (by rfl) (by rfl) (by rfl) (by rfl) (by rfl) (by rfl)
    (by rfl) (by rfl) (by rfl) (by rfl) (by rfl)

theorem dictGet?_cons (k0 : String) (v0 : PyVal) (es : List (String × PyVal))
    (k : String) :
    dictGet? ((k0, v0) :: es) k = if k0 == k then some v0 else dictGet? es k := by
  by_cases h : k0 == k
  · simp [dictGet?, List.find?, h]
  · simp only [Bool.not_eq_true] at h
    simp [dictGet?, List.find?, h]

theorem dictGet?_dictSet_same (es : List (String × PyVal)) (k : String)
    (v : PyVal) : dictGet? (dictSet es k v) k = some v := by
  induction es with
  | nil => simp [dictSet, dictGet?, List.find?]
  | cons kv rest ih =>
    obtain ⟨k0, v0⟩ := kv
    by_cases h : k0 == k
    · simp [dictSet, h, dictGet?_cons]
    · simp only [Bool.not_eq_true] at h
      simp [dictSet, h, dictGet?_cons, ih]

theorem dictGet?_dictSet_other (es : List (String × PyVal)) (k : String)
    (v : PyVal) (k' : String) (h : k' ≠ k) :
    dictGet? (dictSet es k v) k' = dictGet? es k' := by
  have hbk : (k == k') = false := by
    simp only [beq_eq_false_iff_ne, ne_eq]
    exact fun hk => h hk.symm
  induction es with
  | nil => simp [dictSet, dictGet?_cons, hbk, dictGet?]
  | cons kv rest ih =>
    obtain ⟨k0, v0⟩ := kv
    by_cases h0 : k0 == k
    · have hk0 : k0 = k := by simpa using h0
      subst hk0
      simp [dictSet, dictGet?_cons, hbk]
    · simp only [Bool.not_eq_true] at h0
      simp [dictSet, h0, dictGet?_cons, ih]

theorem dictGet?_mem {es : List (String × PyVal)} {k : String} {v : PyVal}
    (h : dictGet? es k = some v) : (k, v) ∈ es := by
  induction es with
  | nil => simp [dictGet?, List.find?] at h
  | cons kv rest ih =>
    obtain ⟨k0, v0⟩ := kv
    rw [dictGet?_cons] at h
    by_cases h0 : k0 == k
    · have hk0 : k0 = k := by simpa using h0
      rw [if_pos h0] at h
      injection h with hv
      subst hk0 hv
      exact List.mem_cons_self _ _
    · rw [if_neg h0] at h
      exact List.mem_cons_of_mem _ (ih h)

theorem dictHas_exists {es : List (String × PyVal)} {k : String} :
    dictHas es k = true ↔ ∃ v, dictGet? es k = some v := by
  unfold dictHas
  cases h : dictGet? es k <;> simp [h]

theorem dictGet?_eq_none_of_not_has {es : List (String × PyVal)} {k : String}
    (h : dictHas es k = false) : dictGet? es k = Option.none := by
  cases hdg : dictGet? es k with
  | none => rfl
  | some v => rw [dictHas, hdg] at h; simp at h

theorem selectMatching_spec {G : Type} (L : GeomLib G) (fk fv : String)
    (feats : List PyVal) (hWF : mergeInputOkB fk fv feats = true) :
    selectMatching L fk fv feats =
      .ok (feats.filter (featureMatches fk fv), matchedGeoms L fk fv feats) := by
  induction feats with
  | nil => simp [selectMatching, matchedGeoms]
  | cons f rest ih =>
    rw [mergeInputOkB, List.all_cons] at hWF
    simp only [Bool.and_eq_true] at hWF
    obtain ⟨⟨hok, hgeom⟩, hrest⟩ := hWF
    have ihr := ih hrest
    cases f with
    | vDict fes =>
      cases hp : dictGet? fes "properties" with
      | none => simp [featureFilterOkB, hp] at hok
      | some pv =>
        cases pv with
        | vDict es =>
          rw [featureFilterOkB, hp] at hok
          have hpg : pyGet (.vDict fes) (.vStr "properties") = .ok (.vDict es) := by
            simp [pyGet, hp]
          rw [selectMatching, hpg]
          simp only [except_bind_ok]
          have hpc : pyContains (.vDict es) (.vStr fk) = .ok (dictHas es fk) := rfl
          rw [hpc]
          simp only [except_bind_ok]
          cases hhas : dictHas es fk with
          | false =>
            have hm : featureMatches fk fv (.vDict fes) = false := by
              simp only [featureMatches, hp, dictGet?_eq_none_of_not_has hhas]
            simp only [Bool.false_eq_true, if_false, except_bind_ok]
            rw [ihr]
            simp [List.filter_cons, hm, matchedGeoms]
          | true =>
            obtain ⟨v, hv⟩ := dictHas_exists.mp hhas
            obtain ⟨s, rfl⟩ : ∃ s, v = .vStr s := by
              have hmem := dictGet?_mem hv
              have hstr := List.all_eq_true.mp hok _ hmem
              simp only [beq_self_eq_true, Bool.not_true, Bool.false_or] at hstr
              cases v <;> simp at hstr
              exact ⟨_, rfl⟩
            have hpgv : pyGet (.vDict es) (.vStr fk) = .ok (.vStr s) := by
              simp [pyGet, hv]
            have hm : featureMatches fk fv (.vDict fes) = strContains s fv := by
              simp only [featureMatches, hp, hv]
            simp only [if_true, except_bind_ok]
            rw [hpgv]
            simp only [except_bind_ok]
            have hpc2 : pyContains (.vStr s) (.vStr fv) = .ok (strContains s fv) := rfl
            rw [hpc2]
            simp only [except_bind_ok]
            cases hsc : strContains s fv with
            | false =>
              simp only [Bool.false_eq_true, if_false]
              rw [ihr]
              simp [List.filter_cons, hm, hsc, matchedGeoms]
            | true =>
              have hmt : featureMatches fk fv (.vDict fes) = true := by
                rw [hm, hsc]
              have hgb : hasGeometryB (.vDict fes) = true := by
                rw [hmt] at hgeom
                simpa using hgeom
              obtain ⟨gv, hgv⟩ := dictHas_exists.mp (by
                rw [hasGeometryB] at hgb
                exact hgb)
              have hpgG : pyGet (.vDict fes) (.vStr "geometry") = .ok gv := by
                simp [pyGet, hgv]
              have hfg : featureGeometry (.vDict fes) = gv := by
                rw [featureGeometry, hgv]
              simp only [if_true, except_bind_ok]
              rw [hpgG]
              simp only [except_bind_ok]
              rw [ihr]
              simp only [except_bind_ok]
              simp only [List.filter_cons, hmt, if_true, matchedGeoms, List.map_cons, hfg]
              rfl
        | vStr s => simp [featureFilterOkB, hp] at hok
        | vInt n => simp [featureFilterOkB, hp] at hok
        | vFloat q => simp [featureFilterOkB, hp] at hok
        | vBool b => simp [featureFilterOkB, hp] at hok
        | vNone => simp [featureFilterOkB, hp] at hok
        | vList xs => simp [featureFilterOkB, hp] at hok
        | vTuple xs => simp [featureFilterOkB, hp] at hok
    | vStr s => simp [featureFilterOkB] at hok
    | vInt n => simp [featureFilterOkB] at hok
    | vFloat q => simp [featureFilterOkB] at hok
    | vBool b => simp [featureFilterOkB] at hok
    | vNone => simp [featureFilterOkB] at hok
    | vList xs => simp [featureFilterOkB] at hok
    | vTuple xs => simp [featureFilterOkB] at hok


theorem optAccum_nil (o : Option ℚ) : optAccum o [] = o := by
  cases o <;> rfl

theorem optAccum_shift (p q : ℚ) (tl : List ℚ) :
    optAccum (some (p + q)) tl = optAccum (some p) (q :: tl) := by
  cases tl with
  | nil => simp [optAccum]
  | cons x xs => simp [optAccum]; ring

theorem optAccum_none_cons (q : ℚ) (tl : List ℚ) :
    optAccum Option.none (q :: tl) = optAccum (some q) tl := by
  cases tl with
  | nil => simp [optAccum]
  | cons x xs => simp [optAccum]

theorem itemFloats_nil (k : String) : itemFloats k [] = [] := rfl

theorem itemFloats_cons_float (k k0 : String) (q : ℚ)
    (rest : List (String × PyVal)) :
    itemFloats k ((k0, .vFloat q) :: rest) =
      if k0 == k then q :: itemFloats k rest else itemFloats k rest := by
  by_cases h : k0 = k
  · subst h
    simp [itemFloats, List.filterMap_cons]
  · simp [itemFloats, List.filterMap_cons, h]

theorem itemFloats_cons_nonfloat (k k0 : String) (v : PyVal)
    (hv : ∀ q : ℚ, v ≠ .vFloat q) (rest : List (String × PyVal)) :
    itemFloats k ((k0, v) :: rest) = itemFloats k rest := by
  cases v with
  | vFloat q => exact absurd rfl (hv q)
  | vStr s => simp [itemFloats, List.filterMap_cons]
  | vInt n => simp [itemFloats, List.filterMap_cons]
  | vBool b => simp [itemFloats, List.filterMap_cons]
  | vNone => simp [itemFloats, List.filterMap_cons]
  | vList xs => simp [itemFloats, List.filterMap_cons]
  | vTuple xs => simp [itemFloats, List.filterMap_cons]
  | vDict es => simp [itemFloats, List.filterMap_cons]

theorem addFloatStep_some (acc : List (String × PyVal)) (k : String)
    (p q : ℚ) (h : dictGet? acc k = some (.vFloat p)) :
    addFloatStep acc k q = .ok (dictSet acc k (.vFloat (p + q))) := by
  unfold addFloatStep
  rw [h]
  rfl

theorem addFloatStep_none (acc : List (String × PyVal)) (k : String) (q : ℚ)
    (h : dictGet? acc k = Option.none) :
    addFloatStep acc k q = .ok (dictSet acc k (.vFloat q)) := by
  unfold addFloatStep
  rw [h]
  rfl

theorem addFloatItems_spec (fk fv : String) (items : List (String × PyVal))
    (hitems : ∀ v, (fk, v) ∈ items → ∃ s, v = .vStr s) :
    ∀ acc : List (String × PyVal),
    dictGet? acc fk = some (.vStr fv) →
    (∀ k, k ≠ fk → dictGet? acc k = (accFloat? acc k).map PyVal.vFloat) →
    ∃ acc', addFloatItems acc items = .ok acc' ∧
      dictGet? acc' fk = some (.vStr fv) ∧
      (∀ k, k ≠ fk →
        dictGet? acc' k =
          (optAccum (accFloat? acc k) (itemFloats k items)).map PyVal.vFloat) := by
  induction items with
  | nil =>
    intro acc hfk hflt
    refine ⟨acc, rfl, hfk, ?_⟩
    intro k hk
    rw [itemFloats_nil, optAccum_nil]
    exact hflt k hk
  | cons kv rest ih =>
    obtain ⟨k0, v0⟩ := kv
    intro acc hfk hflt
    have hrest : ∀ v, (fk, v) ∈ rest → ∃ s, v = .vStr s :=
      fun v hm => hitems v (List.mem_cons_of_mem _ hm)
    cases v0 with
    | vFloat q =>
      have hk0 : k0 ≠ fk := by
        intro heq
        subst heq
        obtain ⟨s, hs⟩ := hitems (.vFloat q) (List.mem_cons_self _ _)
        cases hs
      rw [addFloatItems]
      cases hget : dictGet? acc k0 with
      | some old =>
        have hfl := hflt k0 hk0
        rw [hget] at hfl
        obtain ⟨p, hp⟩ : ∃ p, accFloat? acc k0 = some p := by
          cases hq : accFloat? acc k0 with
          | some p => exact ⟨p, rfl⟩
          | none => rw [hq] at hfl; cases hfl
        rw [hp] at hfl
        injection (show some old = some (PyVal.vFloat p) from hfl) with hold
        have hget' : dictGet? acc k0 = some (.vFloat p) := by rw [hget, hold]
        rw [addFloatStep_some acc k0 p q hget']
        simp only [except_bind_ok]
        have hfk2 : dictGet? (dictSet acc k0 (.vFloat (p + q))) fk =
            some (.vStr fv) := by
          rw [dictGet?_dictSet_other acc k0 _ fk (fun h => hk0 h.symm), hfk]
        have hflt2 : ∀ k, k ≠ fk →
            dictGet? (dictSet acc k0 (.vFloat (p + q))) k =
              (accFloat? (dictSet acc k0 (.vFloat (p + q))) k).map PyVal.vFloat := by
          intro k hk
          by_cases hkk : k = k0
          · subst hkk
            rw [dictGet?_dictSet_same, accFloat?, dictGet?_dictSet_same]
            rfl
          · rw [dictGet?_dictSet_other acc k0 _ k hkk, accFloat?,
              dictGet?_dictSet_other acc k0 _ k hkk]
            exact hflt k hk
        obtain ⟨acc', hrun, hfk3, hform⟩ := ih hrest _ hfk2 hflt2
        refine ⟨acc', hrun, hfk3, ?_⟩
        intro k hk
        rw [hform k hk]
        by_cases hkk : k = k0
        · subst hkk
          rw [itemFloats_cons_float]
          simp only [beq_self_eq_true, if_true]
          have h2 : accFloat? (dictSet acc k (.vFloat (p + q))) k = some (p + q) := by
            rw [accFloat?, dictGet?_dictSet_same]
          rw [h2, hp, optAccum_shift]
        · rw [itemFloats_cons_float]
          have hbk : (k0 == k) = false := by
            simp only [beq_eq_false_iff_ne, ne_eq]
            exact fun h => hkk h.symm
          rw [hbk]
          simp only [Bool.false_eq_true, if_false]
          have h2 : accFloat? (dictSet acc k0 (.vFloat (p + q))) k =
              accFloat? acc k := by
            rw [accFloat?, dictGet?_dictSet_other acc k0 _ k hkk, accFloat?]
          rw [h2]
      | none =>
        rw [addFloatStep_none acc k0 q hget]
        simp only [except_bind_ok]
        have hfk2 : dictGet? (dictSet acc k0 (.vFloat q)) fk = some (.vStr fv) := by
          rw [dictGet?_dictSet_other acc k0 _ fk (fun h => hk0 h.symm), hfk]
        have hflt2 : ∀ k, k ≠ fk →
            dictGet? (dictSet acc k0 (.vFloat q)) k =
              (accFloat? (dictSet acc k0 (.vFloat q)) k).map PyVal.vFloat := by
          intro k hk
          by_cases hkk : k = k0
          · subst hkk
            rw [dictGet?_dictSet_same, accFloat?, dictGet?_dictSet_same]
            rfl
          · rw [dictGet?_dictSet_other acc k0 _ k hkk, accFloat?,
              dictGet?_dictSet_other acc k0 _ k hkk]
            exact hflt k hk
        obtain ⟨acc', hrun, hfk3, hform⟩ := ih hrest _ hfk2 hflt2
        refine ⟨acc', hrun, hfk3, ?_⟩
        intro k hk
        rw [hform k hk]
        by_cases hkk : k = k0
        · subst hkk
          rw [itemFloats_cons_float]
          simp only [beq_self_eq_true, if_true]
          have h2 : accFloat? (dictSet acc k (.vFloat q)) k = some q := by
            rw [accFloat?, dictGet?_dictSet_same]
          have h3 : accFloat? acc k = Option.none := by
            rw [accFloat?, hget]
          rw [h2, h3, optAccum_none_cons]
        · rw [itemFloats_cons_float]
          have hbk : (k0 == k) = false := by
            simp only [beq_eq_false_iff_ne, ne_eq]
            exact fun h => hkk h.symm
          rw [hbk]
          simp only [Bool.false_eq_true, if_false]
          have h2 : accFloat? (dictSet acc k0 (.vFloat q)) k = accFloat? acc k := by
            rw [accFloat?, dictGet?_dictSet_other acc k0 _ k hkk, accFloat?]
          rw [h2]
    | vStr s =>
      rw [addFloatItems]
      obtain ⟨acc', hrun, hfk3, hform⟩ := ih hrest acc hfk hflt
      refine ⟨acc', hrun, hfk3, ?_⟩
      intro k hk
      have hnf : ∀ q : ℚ, (PyVal.vStr s : PyVal) ≠ PyVal.vFloat q := by
        intro q h
        cases h
      rw [hform k hk, itemFloats_cons_nonfloat _ _ _ hnf]
      intro q h
      cases h
    | vInt n =>
      rw [addFloatItems]
      obtain ⟨acc', hrun, hfk3, hform⟩ := ih hrest acc hfk hflt
      refine ⟨acc', hrun, hfk3, ?_⟩
      intro k hk
      have hnf : ∀ q : ℚ, (PyVal.vInt n : PyVal) ≠ PyVal.vFloat q := by
        intro q h
        cases h
      rw [hform k hk, itemFloats_cons_nonfloat _ _ _ hnf]
      intro q h
      cases h
    | vBool b =>
      rw [addFloatItems]
      obtain ⟨acc', hrun, hfk3, hform⟩ := ih hrest acc hfk hflt
      refine ⟨acc', hrun, hfk3, ?_⟩
      intro k hk
      have hnf : ∀ q : ℚ, (PyVal.vBool b : PyVal) ≠ PyVal.vFloat q := by
        intro q h
        cases h
      rw [hform k hk, itemFloats_cons_nonfloat _ _ _ hnf]
      intro q h
      cases h
    | vNone =>
      rw [addFloatItems]
      obtain ⟨acc', hrun, hfk3, hform⟩ := ih hrest acc hfk hflt
      refine ⟨acc', hrun, hfk3, ?_⟩
      intro k hk
      have hnf : ∀ q : ℚ, (PyVal.vNone : PyVal) ≠ PyVal.vFloat q := by
        intro q h
        cases h
      rw [hform k hk, itemFloats_cons_nonfloat _ _ _ hnf]
      intro q h
      cases h
    | vList xs =>
      rw [addFloatItems]
      obtain ⟨acc', hrun, hfk3, hform⟩ := ih hrest acc hfk hflt
      refine ⟨acc', hrun, hfk3, ?_⟩
      intro k hk
      have hnf : ∀ q : ℚ, (PyVal.vList xs : PyVal) ≠ PyVal.vFloat q := by
        intro q h
        cases h
      rw [hform k hk, itemFloats_cons_nonfloat _ _ _ hnf]
      intro q h
      cases h
    | vTuple xs =>
      rw [addFloatItems]
      obtain ⟨acc', hrun, hfk3, hform⟩ := ih hrest acc hfk hflt
      refine ⟨acc', hrun, hfk3, ?_⟩
      intro k hk
      have hnf : ∀ q : ℚ, (PyVal.vTuple xs : PyVal) ≠ PyVal.vFloat q := by
        intro q h
        cases h
      rw [hform k hk, itemFloats_cons_nonfloat _ _ _ hnf]
      intro q h
      cases h
    | vDict es2 =>
      rw [addFloatItems]
      obtain ⟨acc', hrun, hfk3, hform⟩ := ih hrest acc hfk hflt
      refine ⟨acc', hrun, hfk3, ?_⟩
      intro k hk
      have hnf : ∀ q : ℚ, (PyVal.vDict es2 : PyVal) ≠ PyVal.vFloat q := by
        intro q h
        cases h
      rw [hform k hk, itemFloats_cons_nonfloat _ _ _ hnf]
      intro q h
      cases h

theorem optAccum_append (o : Option ℚ) (a b : List ℚ) :
    optAccum o (a ++ b) = optAccum (optAccum o a) b := by
  cases a with
  | nil => rw [List.nil_append, optAccum_nil]
  | cons x xs =>
    cases o with
    | some p =>
      cases b with
      | nil => simp [optAccum, List.sum_append]
      | cons y ys =>
        simp [optAccum, List.sum_append]
        ring
    | none =>
      cases b with
      | nil => simp [optAccum, List.sum_append]
      | cons y ys =>
        simp [optAccum, List.sum_append]
        ring

theorem accFloat?_of_map {acc : List (String × PyVal)} {k : String}
    {o : Option ℚ} (h : dictGet? acc k = o.map PyVal.vFloat) :
    accFloat? acc k = o := by
  cases o with
  | none => rw [accFloat?, h]; rfl
  | some q => rw [accFloat?, h]; rfl

theorem featurePropEntries_of_props {fes es : List (String × PyVal)}
    (h : dictGet? fes "properties" = some (.vDict es)) :
    featurePropEntries (.vDict fes) = es := by
  rw [featurePropEntries, h]

theorem addFloatProps_spec (fk fv : String) (feats : List PyVal)
    (hok : ∀ f ∈ feats, featureFilterOkB fk f = true) :
    ∀ acc : List (String × PyVal),
    dictGet? acc fk = some (.vStr fv) →
    (∀ k, k ≠ fk → dictGet? acc k = (accFloat? acc k).map PyVal.vFloat) →
    ∃ acc', addFloatProps acc feats = .ok acc' ∧
      dictGet? acc' fk = some (.vStr fv) ∧
      (∀ k, k ≠ fk →
        dictGet? acc' k =
          (optAccum (accFloat? acc k)
            (feats.flatMap (fun f => floatItemsAt k f))).map PyVal.vFloat) := by
  induction feats with
  | nil =>
    intro acc hfk hflt
    refine ⟨acc, rfl, hfk, ?_⟩
    intro k hk
    rw [List.flatMap_nil, optAccum_nil]
    exact hflt k hk
  | cons f rest ih =>
    intro acc hfk hflt
    have hokf := hok f (List.mem_cons_self _ _)
    have hokr : ∀ f2 ∈ rest, featureFilterOkB fk f2 = true :=
      fun f2 hm => hok f2 (List.mem_cons_of_mem _ hm)
    cases f with
    | vDict fes =>
      cases hp : dictGet? fes "properties" with
      | none => simp [featureFilterOkB, hp] at hokf
      | some pv =>
        cases pv with
        | vDict es =>
          rw [featureFilterOkB, hp] at hokf
          have hall : es.all (fun kv => !(kv.1 == fk) ||
              (match kv.2 with | .vStr _ => true | _ => false)) = true := hokf
          have hitems : ∀ v, (fk, v) ∈ es → ∃ s, v = .vStr s := by
            intro v hm
            have := List.all_eq_true.mp hall _ hm
            simp only [beq_self_eq_true, Bool.not_true, Bool.false_or] at this
            cases v <;> simp at this
            exact ⟨_, rfl⟩
          have hpg : pyGet (.vDict fes) (.vStr "properties") = .ok (.vDict es) := by
            simp [pyGet, hp]
          rw [addFloatProps, hpg]
          simp only [except_bind_ok]
          have hpi : pyItems (.vDict es) = .ok es := rfl
          rw [hpi]
          simp only [except_bind_ok]
          obtain ⟨acc2, hrun2, hfk2, hform2⟩ :=
            addFloatItems_spec fk fv es hitems acc hfk hflt
          rw [hrun2]
          simp only [except_bind_ok]
          have hflt2 : ∀ k, k ≠ fk →
              dictGet? acc2 k = (accFloat? acc2 k).map PyVal.vFloat := by
            intro k hk
            rw [accFloat?_of_map (hform2 k hk)]
            exact hform2 k hk
          obtain ⟨acc', hrun', hfk', hform'⟩ := ih hokr acc2 hfk2 hflt2
          refine ⟨acc', hrun', hfk', ?_⟩
          intro k hk
          rw [hform' k hk, accFloat?_of_map (hform2 k hk)]
          rw [List.flatMap_cons, optAccum_append]
          rw [floatItemsAt, featurePropEntries_of_props hp]
        | vStr s => simp [featureFilterOkB, hp] at hokf
        | vInt n => simp [featureFilterOkB, hp] at hokf
        | vFloat q => simp [featureFilterOkB, hp] at hokf
        | vBool b => simp [featureFilterOkB, hp] at hokf
        | vNone => simp [featureFilterOkB, hp] at hokf
        | vList xs => simp [featureFilterOkB, hp] at hokf
        | vTuple xs => simp [featureFilterOkB, hp] at hokf
    | vStr s => simp [featureFilterOkB] at hokf
    | vInt n => simp [featureFilterOkB] at hokf
    | vFloat q => simp [featureFilterOkB] at hokf
    | vBool b => simp [featureFilterOkB] at hokf
    | vNone => simp [featureFilterOkB] at hokf
    | vList xs => simp [featureFilterOkB] at hokf
    | vTuple xs => simp [featureFilterOkB] at hokf

theorem accFloat?_init (fk : String) (fv : String) (k : String) :
    accFloat? [(fk, PyVal.vStr fv)] k = Option.none := by
  rw [accFloat?]
  cases h : dictGet? [(fk, PyVal.vStr fv)] k with
  | none => rfl
  | some v =>
    rw [dictGet?_cons] at h
    by_cases hb : fk == k
    · rw [if_pos hb] at h
      injection h with hv
      rw [← hv]
    · rw [if_neg hb] at h
      simp [dictGet?, List.find?] at h

theorem dictGet?_init_self (fk fv : String) :
    dictGet? [(fk, PyVal.vStr fv)] fk = some (.vStr fv) := by
  rw [dictGet?_cons]
  simp

theorem dictGet?_init_other (fk fv k : String) (h : k ≠ fk) :
    dictGet? [(fk, PyVal.vStr fv)] k = Option.none := by
  rw [dictGet?_cons]
  have hb : (fk == k) = false := by
    simp only [beq_eq_false_iff_ne, ne_eq]
    exact fun h2 => h h2.symm
  rw [if_neg (by rw [hb]; exact Bool.false_ne_true)]
  rfl

theorem merge_polys_full {G : Type} (L : GeomLib G) (g crsv : PyVal)
    (feats : List PyVal) (fk fv : String)
    (hcrs : pyGet g (.vStr "crs") = .ok crsv)
    (hfs : pyGet g (.vStr "features") = .ok (.vList feats))
    (hWF : mergeInputOkB fk fv feats = true) :
    ∃ props, merge_polys L g fk fv =
      .ok (mergeResult L crsv (L.cascadedUnion (matchedGeoms L fk fv feats)) props) ∧
      dictGet? props fk = some (.vStr fv) ∧
      (∀ k, k ≠ fk → dictGet? props k =
        (optAccum Option.none
          ((feats.filter (featureMatches fk fv)).flatMap
            (fun f => floatItemsAt k f))).map PyVal.vFloat) := by
  have hok : ∀ f ∈ feats.filter (featureMatches fk fv),
      featureFilterOkB fk f = true := by
    intro f hm
    have hm2 := (List.mem_filter.mp hm).1
    rw [mergeInputOkB] at hWF
    have hall := List.all_eq_true.mp hWF f hm2
    simp only [Bool.and_eq_true] at hall
    exact hall.1
  have hflt0 : ∀ k, k ≠ fk →
      dictGet? [(fk, PyVal.vStr fv)] k =
        (accFloat? [(fk, PyVal.vStr fv)] k).map PyVal.vFloat := by
    intro k hk
    rw [dictGet?_init_other fk fv k hk, accFloat?_init]
    rfl
  obtain ⟨props, hrun, hfk', hform⟩ :=
    addFloatProps_spec fk fv (feats.filter (featureMatches fk fv)) hok
      [(fk, PyVal.vStr fv)] (dictGet?_init_self fk fv) hflt0
  refine ⟨props, ?_, hfk', ?_⟩
  · simp only [merge_polys, hcrs]
    rw [hfs]
    simp only [except_bind_ok]
    have hit : pyIterate (.vList feats) = .ok feats := rfl
    rw [hit]
    simp only [except_bind_ok]
    rw [selectMatching_spec L fk fv feats hWF]
    simp only [except_bind_ok]
    rw [hrun]
    simp only [except_bind_ok]
    rfl
  · intro k hk
    rw [hform k hk, accFloat?_init]

theorem optAccum_none_eq (qs : List ℚ) :
    (optAccum Option.none qs).map PyVal.vFloat =
      if qs.isEmpty then Option.none else some (.vFloat qs.sum) := by
  cases qs <;> simp [optAccum]

/-- C1: on every well-formed input (features whose properties are
dictionaries holding strings under the filter key, matching features
carrying a geometry), `merge_polys` returns a new GeoJSON structure whose
`features` list holds exactly one feature; that feature's geometry is the
GeoJSON mapping of the cascaded union of the shapely geometries of exactly
the input features whose properties contain the filter key with a value
containing the filter value (`matchedGeoms`), and the structure's bbox is
the bounds of that merged geometry. -/
theorem c1_merge_polys_union {G : Type} (L : GeomLib G) (g crsv : PyVal)
    (feats : List PyVal) (fk fv : String)
    (hcrs : pyGet g (.vStr "crs") = .ok crsv)
    (hfs : pyGet g (.vStr "features") = .ok (.vList feats))
    (hWF : mergeInputOkB fk fv feats = true) :
    ∃ props, merge_polys L g fk fv =
      .ok (.vDict [("type", .vStr "FeatureCollection"),
        ("features", .vList [.vDict [("type", .vStr "feature"), ("id", .vInt 0),
          ("geometry", L.mapping (L.cascadedUnion (matchedGeoms L fk fv feats))),
          ("properties", .vDict props)]]),
        ("crs", crsv),
        ("bbox", L.bounds (L.cascadedUnion (matchedGeoms L fk fv feats)))]) := by
  obtain ⟨props, h, h2, h3⟩ := merge_polys_full L g crsv feats fk fv hcrs hfs hWF
  exact ⟨props, h⟩

/-- Closed instance of `c1_merge_polys_union` on `sampleFC` with the filter
pair (countyname, Cork). -/
theorem c1_witness :
    ∃ props, merge_polys testLib sampleFC "countyname" "Cork" =
      .ok (PyVal.vDict [("type", PyVal.vStr "FeatureCollection"),
        ("features", PyVal.vList [PyVal.vDict [
          ("type", PyVal.vStr "feature"), ("id", PyVal.vInt 0),
          ("geometry", testLib.mapping (testLib.cascadedUnion
            (matchedGeoms testLib "countyname" "Cork" sampleFeatures))),
          ("properties", PyVal.vDict props)]]),
        ("crs", PyVal.vDict [("type", PyVal.vStr "EPSG"),
          ("properties", PyVal.vDict [("code", PyVal.vInt 29902)])]),
        ("bbox", testLib.bounds (testLib.cascadedUnion
          (matchedGeoms testLib "countyname" "Cork" sampleFeatures)))]) :=
  c1_merge_polys_union testLib sampleFC
    (PyVal.vDict [("type", PyVal.vStr "EPSG"),
      ("properties", PyVal.vDict [("code", PyVal.vInt 29902)])])
    sampleFeatures "countyname" "Cork" (by rfl) (by rfl) (by rfl)

/-- C2 counterexample: on `c2In` both matching features carry the numeric
(int) property `pop` with values 5 and 6, so the claim predicts an entry
mapping `pop` to 11 in the merged properties; the code aggregates only
values of exact type float, and the returned single feature's properties
hold nothing but the filter pair: looking up `pop` raises KeyError. -/
theorem c2_counterexample :
    merge_polys testLib c2In "name" "Dub" = PyOutcome.ok c2Out ∧
    firstFeatureProps c2Out = .ok (.vDict [("name", .vStr "Dub")]) ∧
    pyGet (.vDict [("name", .vStr "Dub")]) (.vStr "pop") =
      .error (.keyError "pop") :=
  ⟨rfl, rfl, rfl⟩

/-- C2 amended: the single feature returned by `merge_polys` has properties
that map the filter key to the filter value and, for every property key
with float-typed values appearing in the filter-matching features, map that
key to the sum of that property's float values over all matching features;
properties of any other type, int-typed ones included, are not
aggregated. -/
theorem c2_float_aggregation {G : Type} (L : GeomLib G) (g crsv : PyVal)
    (feats : List PyVal) (fk fv : String)
    (hcrs : pyGet g (.vStr "crs") = .ok crsv)
    (hfs : pyGet g (.vStr "features") = .ok (.vList feats))
    (hWF : mergeInputOkB fk fv feats = true) :
    ∃ props, merge_polys L g fk fv =
      .ok (mergeResult L crsv (L.cascadedUnion (matchedGeoms L fk fv feats)) props) ∧
      dictGet? props fk = some (.vStr fv) ∧
      (∀ k, k ≠ fk →
        dictGet? props k =
          (if ((feats.filter (featureMatches fk fv)).flatMap
                (fun f => floatItemsAt k f)).isEmpty
           then Option.none
           else some (.vFloat ((feats.filter (featureMatches fk fv)).flatMap
             (fun f => floatItemsAt k f)).sum))) := by
  obtain ⟨props, h, h2, h3⟩ := merge_polys_full L g crsv feats fk fv hcrs hfs hWF
  refine ⟨props, h, h2, ?_⟩
  intro k hk
  rw [h3 k hk, optAccum_none_eq]

/-- Closed instance of `c2_float_aggregation` on `sampleFC` with the filter
pair (countyname, Cork). -/
theorem c2_witness :
    ∃ props, merge_polys testLib sampleFC "countyname" "Cork" =
      .ok (mergeResult testLib
        (PyVal.vDict [("type", PyVal.vStr "EPSG"),
          ("properties", PyVal.vDict [("code", PyVal.vInt 29902)])])
        (testLib.cascadedUnion
          (matchedGeoms testLib "countyname" "Cork" sampleFeatures)) props) ∧
      dictGet? props "countyname" = some (.vStr "Cork") ∧
      (∀ k, k ≠ "countyname" →
        dictGet? props k =
          (if ((sampleFeatures.filter (featureMatches "countyname" "Cork")).flatMap
                (fun f => floatItemsAt k f)).isEmpty
           then Option.none
           else some (.vFloat
             ((sampleFeatures.filter (featureMatches "countyname" "Cork")).flatMap
               (fun f => floatItemsAt k f)).sum))) :=
  c2_float_aggregation testLib sampleFC
    (PyVal.vDict [("type", PyVal.vStr "EPSG"),
      ("properties", PyVal.vDict [("code", PyVal.vInt 29902)])])
    sampleFeatures "countyname" "Cork" (by rfl) (by rfl) (by rfl)

theorem beq_symm_false {a b : String} (h : (a == b) = false) :
    (b == a) = false := by
  simp only [beq_eq_false_iff_ne, ne_eq] at h ⊢
  exact fun he => h he.symm

theorem schemaHas_append (a b : List (String × String)) (k : String) :
    schemaHas (a ++ b) k = (schemaHas a k || schemaHas b k) := by
  rw [schemaHas, schemaHas, schemaHas, List.any_append]

theorem schemaSet_not_mem (sch : List (String × String)) (k t : String)
    (h : schemaHas sch k = false) : schemaSet sch k t = sch ++ [(k, t)] := by
  induction sch with
  | nil => rfl
  | cons kv rest ih =>
    obtain ⟨k0, t0⟩ := kv
    rw [schemaHas, List.any_cons] at h
    simp only [Bool.or_eq_false_iff] at h
    rw [schemaSet, if_neg (by rw [h.1]; exact Bool.false_ne_true)]
    rw [ih h.2, List.cons_append]

theorem dictHas_append (a b : List (String × PyVal)) (k : String) :
    dictHas (a ++ b) k = (dictHas a k || dictHas b k) := by
  rw [dictHas, dictGet?, List.find?_append]
  cases h : a.find? (fun kv => kv.1 == k) with
  | some kv => simp [dictHas, dictGet?, h]
  | none => simp [dictHas, dictGet?, h]

theorem dictSet_not_mem (es : List (String × PyVal)) (k : String) (v : PyVal)
    (h : dictHas es k = false) : dictSet es k v = es ++ [(k, v)] := by
  induction es with
  | nil => rfl
  | cons kv rest ih =>
    obtain ⟨k0, v0⟩ := kv
    rw [dictHas, dictGet?_cons] at h
    by_cases hb : k0 == k
    · rw [if_pos hb] at h
      simp at h
    · rw [if_neg hb] at h
      rw [dictSet, if_neg hb, ih h, List.cons_append]

theorem buildSchema_go (items : List (String × PyVal)) :
    ∀ acc : List (String × String), keysNodupB items = true →
    (∀ kv ∈ items, schemaHas acc kv.1 = false) →
    items.foldl
      (fun sch kv =>
        if PyVal.typeName kv.2 == "str" || PyVal.typeName kv.2 == "int" ||
            PyVal.typeName kv.2 == "float" then
          schemaSet sch kv.1 (PyVal.typeName kv.2)
        else sch)
      acc = acc ++ schemaSpec items := by
  induction items with
  | nil =>
    intro acc _ _
    simp [schemaSpec]
  | cons kv rest ih =>
    obtain ⟨k, v⟩ := kv
    intro acc hnd hd
    rw [keysNodupB] at hnd
    simp only [Bool.and_eq_true, Bool.not_eq_true] at hnd
    obtain ⟨hfresh, hndr⟩ := hnd
    have hdk := hd (k, v) (List.mem_cons_self _ _)
    rw [List.foldl_cons]
    by_cases ht : (PyVal.typeName v == "str" || PyVal.typeName v == "int" ||
        PyVal.typeName v == "float") = true
    · rw [if_pos ht, schemaSet_not_mem acc k _ hdk]
      have hd2 : ∀ kv ∈ rest, schemaHas (acc ++ [(k, PyVal.typeName v)]) kv.1 = false := by
        intro kv2 hm
        rw [schemaHas_append]
        have h1 := hd kv2 (List.mem_cons_of_mem _ hm)
        have h2 : (kv2.1 == k) = false := by
          cases hb : kv2.1 == k
          · rfl
          · exfalso
            have : rest.any (fun kv => kv.1 == k) = true :=
              List.any_eq_true.mpr ⟨kv2, hm, hb⟩
            rw [this] at hfresh
            cases hfresh
        rw [h1]
        simp [schemaHas, List.any_cons, beq_symm_false h2]
      rw [ih _ hndr hd2, List.append_assoc]
      have : schemaSpec ((k, v) :: rest) = (k, PyVal.typeName v) :: schemaSpec rest := by
        rw [schemaSpec, schemaSpec, List.filter_cons, if_pos ht, List.map_cons]
      rw [this]
      rfl
    · rw [if_neg ht]
      have hd2 : ∀ kv ∈ rest, schemaHas acc kv.1 = false :=
        fun kv2 hm => hd kv2 (List.mem_cons_of_mem _ hm)
      rw [ih _ hndr hd2]
      have : schemaSpec ((k, v) :: rest) = schemaSpec rest := by
        rw [schemaSpec, schemaSpec, List.filter_cons,
          if_neg ht]
      rw [this]
    
theorem buildSchema_eq (items : List (String × PyVal))
    (hnd : keysNodupB items = true) : buildSchema items = schemaSpec items := by
  rw [buildSchema, buildSchema_go items [] hnd (fun kv _ => rfl)]
  rfl

theorem filterProps_go (sch : List (String × String)) (items : List (String × PyVal)) :
    ∀ acc : List (String × PyVal), keysNodupB items = true →
    (∀ kv ∈ items, dictHas acc kv.1 = false) →
    items.foldl
      (fun acc kv => if schemaHas sch kv.1 then dictSet acc kv.1 kv.2 else acc)
      acc = acc ++ items.filter (fun kv => schemaHas sch kv.1) := by
  induction items with
  | nil =>
    intro acc _ _
    simp
  | cons kv rest ih =>
    obtain ⟨k, v⟩ := kv
    intro acc hnd hd
    rw [keysNodupB] at hnd
    simp only [Bool.and_eq_true, Bool.not_eq_true] at hnd
    obtain ⟨hfresh, hndr⟩ := hnd
    have hdk := hd (k, v) (List.mem_cons_self _ _)
    rw [List.foldl_cons]
    by_cases ht : schemaHas sch k = true
    · rw [if_pos ht, dictSet_not_mem acc k v hdk]
      have hd2 : ∀ kv ∈ rest, dictHas (acc ++ [(k, v)]) kv.1 = false := by
        intro kv2 hm
        rw [dictHas_append]
        have h1 := hd kv2 (List.mem_cons_of_mem _ hm)
        have h2 : (kv2.1 == k) = false := by
          cases hb : kv2.1 == k
          · rfl
          · exfalso
            have : rest.any (fun kv => kv.1 == k) = true :=
              List.any_eq_true.mpr ⟨kv2, hm, hb⟩
            rw [this] at hfresh
            cases hfresh
        rw [h1]
        simp [dictHas, dictGet?, List.find?, beq_symm_false h2]
      rw [ih _ hndr hd2, List.append_assoc, List.filter_cons, if_pos ht]
      rfl
    · rw [if_neg ht]
      have hd2 : ∀ kv ∈ rest, dictHas acc kv.1 = false :=
        fun kv2 hm => hd kv2 (List.mem_cons_of_mem _ hm)
      rw [ih _ hndr hd2, List.filter_cons, if_neg ht]

theorem filterProps_eq (sch : List (String × String))
    (items : List (String × PyVal)) (hnd : keysNodupB items = true) :
    filterProps sch items = items.filter (fun kv => schemaHas sch kv.1) := by
  rw [filterProps, filterProps_go sch items [] hnd (fun kv _ => rfl)]
  rfl

theorem pyGet_vList_zero (f0 : PyVal) (rest : List PyVal) :
    pyGet (.vList (f0 :: rest)) (.vInt 0) = .ok f0 := by
  simp [pyGet, pyIndexList]

theorem writeRecords_spec (sch : List (String × String)) (feats : List PyVal)
    (h : feats.all recordOkB = true) :
    writeRecords sch feats = .ok (feats.map (recordSpec sch)) := by
  induction feats with
  | nil => rfl
  | cons f rest ih =>
    rw [List.all_cons] at h
    simp only [Bool.and_eq_true] at h
    obtain ⟨hf, hrest⟩ := h
    cases f with
    | vDict fes =>
      rw [recordOkB] at hf
      simp only [Bool.and_eq_true] at hf
      obtain ⟨⟨hid, hgeom⟩, hprops⟩ := hf
      obtain ⟨idv, hidv⟩ := dictHas_exists.mp hid
      obtain ⟨gv, hgv⟩ := dictHas_exists.mp hgeom
      cases hp : dictGet? fes "properties" with
      | none => rw [hp] at hprops; cases hprops
      | some pv =>
        cases pv with
        | vDict es =>
          rw [hp] at hprops
          have hnd : keysNodupB es = true := hprops
          have h1 : pyGet (.vDict fes) (.vStr "id") = .ok idv := by
            simp [pyGet, hidv]
          have h2 : pyGet (.vDict fes) (.vStr "geometry") = .ok gv := by
            simp [pyGet, hgv]
          have h3 : pyGet (.vDict fes) (.vStr "properties") = .ok (.vDict es) := by
            simp [pyGet, hp]
          rw [writeRecords, h1]
          simp only [except_bind_ok]
          rw [h2]
          simp only [except_bind_ok]
          rw [h3]
          simp only [except_bind_ok]
          have h4 : pyItems (.vDict es) = .ok es := rfl
          rw [h4]
          simp only [except_bind_ok]
          rw [ih hrest]
          simp only [except_bind_ok]
          rw [List.map_cons]
          have hrs : recordSpec sch (.vDict fes) = .vDict [("type", .vStr "Feature"),
              ("id", idv), ("geometry", gv),
              ("properties", .vDict (filterProps sch es))] := by
            rw [recordSpec, featureId, hidv, featureGeometry, hgv,
              featurePropEntries, hp, filterProps_eq sch es hnd]
          rw [hrs]
          rfl
        | vStr s => rw [hp] at hprops; cases hprops
        | vInt n => rw [hp] at hprops; cases hprops
        | vFloat q => rw [hp] at hprops; cases hprops
        | vBool b => rw [hp] at hprops; cases hprops
        | vNone => rw [hp] at hprops; cases hprops
        | vList xs => rw [hp] at hprops; cases hprops
        | vTuple xs => rw [hp] at hprops; cases hprops
    | vStr s => simp [recordOkB] at hf
    | vInt n => simp [recordOkB] at hf
    | vFloat q => simp [recordOkB] at hf
    | vBool b => simp [recordOkB] at hf
    | vNone => simp [recordOkB] at hf
    | vList xs => simp [recordOkB] at hf
    | vTuple xs => simp [recordOkB] at hf

/-- C3: the shapefile schema written by `geojson_to_shp` is inferred solely
from the first feature: its property schema is exactly the keys of
features[0]'s properties whose values have Python type str, int or float
(each mapped to that type name, `schemaSpec`), and every written record
keeps a property exactly when its key is in that schema, copied unchanged
(`recordSpec`). -/
theorem c3_schema_inference (g crsObj crsProps codeV geom0 gt f0 : PyVal)
    (rest : List PyVal) (es0 : List (String × PyVal))
    (hcrs : pyGet g (.vStr "crs") = .ok crsObj)
    (hcp : pyGet crsObj (.vStr "properties") = .ok crsProps)
    (hcode : pyGet crsProps (.vStr "code") = .ok codeV)
    (hfs : pyGet g (.vStr "features") = .ok (.vList (f0 :: rest)))
    (hp0 : pyGet f0 (.vStr "properties") = .ok (.vDict es0))
    (hnd0 : keysNodupB es0 = true)
    (hg0 : pyGet f0 (.vStr "geometry") = .ok geom0)
    (hgt : pyGet geom0 (.vStr "type") = .ok gt)
    (hrec : (f0 :: rest).all recordOkB = true) :
    geojson_to_shp g = .ok ⟨gt, schemaSpec es0, codeV,
      (f0 :: rest).map (recordSpec (schemaSpec es0))⟩ := by
  unfold geojson_to_shp
  rw [hcrs]
  simp only [except_bind_ok]
  rw [hcp]
  simp only [except_bind_ok]
  rw [hcode]
  simp only [except_bind_ok]
  rw [hfs]
  simp only [except_bind_ok]
  rw [pyGet_vList_zero]
  simp only [except_bind_ok]
  rw [hp0]
  simp only [except_bind_ok]
  have h4 : pyItems (.vDict es0) = .ok es0 := rfl
  rw [h4]
  simp only [except_bind_ok]
  rw [buildSchema_eq es0 hnd0]
  rw [hg0]
  simp only [except_bind_ok]
  rw [hgt]
  simp only [except_bind_ok]
  have h5 : pyIterate (.vList (f0 :: rest)) = .ok (f0 :: rest) := rfl
  rw [h5]
  simp only [except_bind_ok]
  rw [writeRecords_spec (schemaSpec es0) (f0 :: rest) hrec]
  simp only [except_bind_ok]
  rfl

/-- Closed instance of `c3_schema_inference` on `sampleFC`. -/
theorem c3_witness :
    geojson_to_shp sampleFC = .ok ⟨PyVal.vStr "Polygon",
      schemaSpec [("countyname", PyVal.vStr "Cork City"),
        ("area", PyVal.vFloat 2), ("pop", PyVal.vInt 5)],
      PyVal.vInt 29902,
      sampleFeatures.map (recordSpec (schemaSpec
        [("countyname", PyVal.vStr "Cork City"),
         ("area", PyVal.vFloat 2), ("pop", PyVal.vInt 5)]))⟩ :=
  c3_schema_inference sampleFC
    (PyVal.vDict [("type", PyVal.vStr "EPSG"),
      ("properties", PyVal.vDict [("code", PyVal.vInt 29902)])])
    (PyVal.vDict [("code", PyVal.vInt 29902)]) (PyVal.vInt 29902)
    (PyVal.vDict [("type", PyVal.vStr "Polygon"),
      ("coordinates", PyVal.vList [])])
    (PyVal.vStr "Polygon")
    (PyVal.vDict [("type", PyVal.vStr "Feature"), ("id", PyVal.vInt 1),
      ("geometry", PyVal.vDict [("type", PyVal.vStr "Polygon"),
        ("coordinates", PyVal.vList [])]),
      ("properties", PyVal.vDict [("countyname", PyVal.vStr "Cork City"),
        ("area", PyVal.vFloat 2), ("pop", PyVal.vInt 5)])])
    (sampleFeatures.drop 1)
    [("countyname", PyVal.vStr "Cork City"),
     ("area", PyVal.vFloat 2), ("pop", PyVal.vInt 5)]
    (by rfl) (by rfl) (by rfl) (by rfl) (by rfl) (by rfl) (by rfl) (by rfl)
    (by rfl)


theorem pyIndexList_nn {α : Type} (xs : List α) (j : Nat) (h : j < xs.length) :
    pyIndexList xs (j : Int) = .ok (xs.get ⟨j, h⟩) := by
  have h0 : ¬((j : Int) < 0) := by omega
  have hc : (0 : Int) ≤ (j : Int) ∧ (j : Int) < xs.length := by omega
  simp only [pyIndexList, h0, ite_false]
  rw [dif_pos hc]
  have hj : ((j : Int)).toNat = j := by omega
  simp only [hj]

theorem filterRestLoop_go (params fpv : PyVal) (fvs : List PyVal)
    (hfp : pyGet params (.vStr "filter_property") = .ok fpv)
    (hfv : pyGet params (.vStr "filter_values") = .ok (.vList fvs)) :
    ∀ (tail : List PyVal) (j : Nat) (acc : String),
    List.drop j fvs = tail →
    filterRestLoop params ((List.range' j tail.length).map Int.ofNat) acc =
      .ok (acc ++ orClauses (pyStr fpv) tail) := by
  intro tail
  induction tail with
  | nil =>
    intro j acc _
    rw [show (List.range' j (List.length ([] : List PyVal))).map
      Int.ofNat = [] from rfl]
    simp only [filterRestLoop, orClauses]
    rw [String.append_empty]
  | cons v tail' ih =>
    intro j acc hdrop
    have hj : j < fvs.length := by
      by_contra hge
      rw [List.drop_eq_nil_of_le (by omega)] at hdrop
      cases hdrop
    have hcd := List.getElem_cons_drop fvs j hj
    rw [hdrop] at hcd
    injection hcd with h1 h2
    rw [List.length_cons, List.range'_succ, List.map_cons]
    simp only [filterRestLoop]
    rw [hfp]
    simp only [except_bind_ok]
    rw [hfv]
    simp only [except_bind_ok]
    have hidx : pyGet (.vList fvs) (.vInt (Int.ofNat j)) = .ok v := by
      rw [pyGet, show Int.ofNat j = (j : Int) from rfl,
        pyIndexList_nn fvs j hj, List.get_eq_getElem, h1]
    rw [hidx]
    simp only [except_bind_ok]
    rw [ih (j + 1) _ h2]
    rw [orClauses]
    congr 1
    simp [String.append_assoc]


theorem except_pure_eq {α : Type} (a : α) : (pure a : Except PyErr α) = .ok a := rfl

theorem except_throw_eq {α : Type} (e : PyErr) :
    (throw e : Except PyErr α) = .error e := rfl

theorem srsSegment_ok (params v : PyVal)
    (hc : pyContains params (.vStr "srs_code") = .ok true)
    (hv : pyGet params (.vStr "srs_code") = .ok v) :
    srsSegment params =
      .ok (if v.truthy then "&srsName=epsg:" ++ pyStr v else "") := by
  unfold srsSegment
  rw [hc]
  simp only [except_bind_ok, if_true]
  rw [hv]
  simp only [except_bind_ok]
  cases ht : v.truthy <;> simp [ht, except_pure_eq]

theorem propertySegment_ok (params : PyVal) (props : List PyVal) (gf : PyVal)
    (hc : pyContains params (.vStr "properties") = .ok true)
    (hv : pyGet params (.vStr "properties") = .ok (.vList props))
    (hgc : pyContains params (.vStr "geom_field") = .ok true)
    (hgv : pyGet params (.vStr "geom_field") = .ok gf) :
    propertySegment params =
      .ok (if props.isEmpty then ""
        else "&PROPERTYNAME=" ++
          props.foldl (fun acc it => acc ++ pyStr it ++ ",") "" ++
          (if gf.truthy then pyStr gf else "")) := by
  unfold propertySegment
  rw [hc]
  simp only [except_bind_ok, if_true]
  rw [hv]
  simp only [except_bind_ok]
  cases props with
  | nil => simp [PyVal.truthy, except_pure_eq, except_bind_ok]
  | cons a as =>
    have ht : (PyVal.vList (a :: as)).truthy = true := by
      simp [PyVal.truthy]
    rw [ht]
    simp only [if_true, except_pure_eq, except_bind_ok]
    have hit : pyIterate (.vList (a :: as)) = .ok (a :: as) := rfl
    rw [hit]
    simp only [except_bind_ok]
    rw [hgc]
    simp only [except_bind_ok, if_true]
    rw [hgv]
    simp only [except_bind_ok]
    cases hg : gf.truthy <;>
      simp [hg, except_pure_eq, List.isEmpty_cons, String.append_assoc]

theorem filterSegment_ok (params fp : PyVal) (fvs : List PyVal)
    (hc : pyContains params (.vStr "filter_property") = .ok true)
    (hfp : pyGet params (.vStr "filter_property") = .ok fp)
    (hfv : pyGet params (.vStr "filter_values") = .ok (.vList fvs)) :
    filterSegment params =
      .ok (if fp.truthy && !fvs.isEmpty then
        "&CQL_FILTER=" ++ urlQuote (specCqlText (pyStr fp) fvs)
      else "") := by
  unfold filterSegment
  rw [hc]
  simp only [except_bind_ok, if_true]
  rw [hfp]
  simp only [except_bind_ok]
  cases ht : fp.truthy with
  | false => simp [ht, except_pure_eq, except_bind_ok]
  | true =>
    simp only [if_true, except_bind_ok]
    rw [hfv]
    simp only [except_bind_ok]
    cases fvs with
    | nil => simp [PyVal.truthy, except_pure_eq, except_bind_ok]
    | cons v0 vs =>
      have htv : (PyVal.vList (v0 :: vs)).truthy = true := by
        simp [PyVal.truthy]
      rw [htv]
      simp only [if_true, except_pure_eq, except_bind_ok]
      rw [pyGet_vList_zero]
      simp only [except_bind_ok]
      have hlen : pyLen (.vList (v0 :: vs)) = .ok ((v0 :: vs).length : Int) := rfl
      rw [hlen]
      simp only [except_bind_ok]
      have hidxs : ((List.range (((v0 :: vs).length : Int)).toNat).drop 1).map
          Int.ofNat = (List.range' 1 vs.length).map Int.ofNat := by
        have h1 : (((v0 :: vs).length : Int)).toNat = vs.length + 1 := by
          simp
        rw [h1, List.range_eq_range', List.range'_succ]
        rfl
      rw [hidxs,
        filterRestLoop_go params fp (v0 :: vs) hfp hfv vs 1 _ (by rfl)]
      simp only [except_bind_ok]
      simp [specCqlText, List.isEmpty_cons, except_pure_eq]

theorem filterSegment_missing (params fp : PyVal)
    (hc : pyContains params (.vStr "filter_property") = .ok true)
    (hfp : pyGet params (.vStr "filter_property") = .ok fp)
    (ht : fp.truthy = true)
    (hfv : pyGet params (.vStr "filter_values") =
      .error (.keyError "filter_values")) :
    filterSegment params = .error (.keyError "filter_values") := by
  unfold filterSegment
  rw [hc]
  simp only [except_bind_ok, if_true]
  rw [hfp]
  simp only [except_bind_ok, ht, if_true]
  rw [hfv]
  rfl

/-- C6 counterexample: with `host` and `layer` present and a truthy
`filter_property` but no `filter_values` key at all, `get_geojson` raises
KeyError instead of assembling a URL, because the condition evaluates
`params["filter_values"]` unguarded; the claim asserts that whenever host
and layer are present the URL is assembled (with the CQL segment simply
omitted when the filter fields are not present and truthy). -/
theorem c6_counterexample :
    get_geojson (.vDict [("host", .vStr "mf2.dit.ie:8080"),
      ("layer", .vStr "census:counties"),
      ("filter_property", .vStr "countyname")]) =
      .error (.keyError "filter_values") := rfl

/-- C6 amended: `get_geojson` raises ValueError when `host` or `layer` is
missing; on a full PARAMS dictionary (all seven keys present, as built by
the GUI) the request URL is the fixed WFS GetFeature base URL for host and
layer followed by the srsName segment (when the srs code is truthy), then
the PROPERTYNAME segment (when the property list is truthy), then the
URL-encoded CQL_FILTER segment (when the filter property and the filter
value list are truthy), in that order; but when `filter_property` is
present and truthy while the `filter_values` key is absent, the unguarded
lookup raises KeyError instead. -/
theorem c6_url_assembly :
    (∀ es : List (String × PyVal), dictHas es "host" = false →
      get_geojson (.vDict es) =
        .error (.valueError ("Value for " ++ sQuote ++ "host" ++ sQuote ++ " required"))) ∧
    (∀ es : List (String × PyVal), dictHas es "host" = true →
      dictHas es "layer" = false →
      get_geojson (.vDict es) =
        .error (.valueError ("Value for " ++ sQuote ++ "layer" ++ sQuote ++ " required"))) ∧
    (∀ p : WfParams, get_geojson (encodeParams p) =
      .ok (specBaseUrl p ++ specSrsSegment p ++ specPropertySegment p ++
        specFilterSegment p)) ∧
    (∀ p : WfParams, p.filter_property.truthy = true →
      get_geojson (encodeParamsNoFV p) = .error (.keyError "filter_values")) := by
  refine ⟨?_, ?_, ?_, ?_⟩
  · intro es h
    unfold get_geojson
    have hc : pyContains (.vDict es) (.vStr "host") = .ok (dictHas es "host") := rfl
    rw [hc, h]
    simp [except_bind_ok, except_bind_error, except_pure_eq, except_throw_eq]
  · intro es hh hl
    unfold get_geojson
    have hc : pyContains (.vDict es) (.vStr "host") = .ok (dictHas es "host") := rfl
    have hc2 : pyContains (.vDict es) (.vStr "layer") = .ok (dictHas es "layer") := rfl
    rw [hc, hh]
    simp only [except_bind_ok, Bool.not_true, Bool.false_eq_true, if_false]
    rw [hc2, hl]
    simp [except_bind_ok, except_bind_error, except_pure_eq, except_throw_eq]
  · intro p
    unfold get_geojson
    have h1 : pyContains (encodeParams p) (.vStr "host") = .ok true := rfl
    have h2 : pyContains (encodeParams p) (.vStr "layer") = .ok true := rfl
    rw [h1]
    simp only [except_bind_ok, Bool.not_true, Bool.false_eq_true, if_false]
    rw [h2]
    simp only [except_bind_ok, Bool.not_true, Bool.false_eq_true, if_false]
    rw [srsSegment_ok (encodeParams p) p.srs_code rfl rfl]
    simp only [except_bind_ok]
    rw [propertySegment_ok (encodeParams p) p.properties p.geom_field rfl rfl
      rfl rfl]
    simp only [except_bind_ok]
    rw [filterSegment_ok (encodeParams p) p.filter_property p.filter_values
      rfl rfl rfl]
    simp only [except_bind_ok]
    rfl
  · intro p hf
    unfold get_geojson
    have h1 : pyContains (encodeParamsNoFV p) (.vStr "host") = .ok true := rfl
    have h2 : pyContains (encodeParamsNoFV p) (.vStr "layer") = .ok true := rfl
    rw [h1]
    simp only [except_bind_ok, Bool.not_true, Bool.false_eq_true, if_false]
    rw [h2]
    simp only [except_bind_ok, Bool.not_true, Bool.false_eq_true, if_false]
    rw [srsSegment_ok (encodeParamsNoFV p) p.srs_code rfl rfl]
    simp only [except_bind_ok]
    rw [propertySegment_ok (encodeParamsNoFV p) p.properties p.geom_field rfl
      rfl rfl rfl]
    simp only [except_bind_ok]
    rw [filterSegment_missing (encodeParamsNoFV p) p.filter_property rfl rfl
      hf rfl]
    rfl

/-- Closed instances of all four parts of `c6_url_assembly` on concrete
parameter dictionaries. -/
theorem c6_witness :
    get_geojson (.vDict [("layer", .vStr "census:counties")]) =
      .error (.valueError ("Value for " ++ sQuote ++ "host" ++ sQuote ++ " required")) ∧
    get_geojson (.vDict [("host", .vStr "mf2.dit.ie:8080")]) =
      .error (.valueError ("Value for " ++ sQuote ++ "layer" ++ sQuote ++ " required")) ∧
    get_geojson (encodeParams ⟨"mf2.dit.ie:8080", "census:counties",
      .vInt 29902, [.vStr "countyname"], .vStr "geom", .vStr "countyname",
      [.vStr "Cork", .vStr "Kerry"]⟩) =
      .ok (specBaseUrl ⟨"mf2.dit.ie:8080", "census:counties", .vInt 29902,
          [.vStr "countyname"], .vStr "geom", .vStr "countyname",
          [.vStr "Cork", .vStr "Kerry"]⟩ ++
        specSrsSegment ⟨"mf2.dit.ie:8080", "census:counties", .vInt 29902,
          [.vStr "countyname"], .vStr "geom", .vStr "countyname",
          [.vStr "Cork", .vStr "Kerry"]⟩ ++
        specPropertySegment ⟨"mf2.dit.ie:8080", "census:counties", .vInt 29902,
          [.vStr "countyname"], .vStr "geom", .vStr "countyname",
          [.vStr "Cork", .vStr "Kerry"]⟩ ++
        specFilterSegment ⟨"mf2.dit.ie:8080", "census:counties", .vInt 29902,
          [.vStr "countyname"], .vStr "geom", .vStr "countyname",
          [.vStr "Cork", .vStr "Kerry"]⟩) ∧
    get_geojson (encodeParamsNoFV ⟨"mf2.dit.ie:8080", "census:counties",
      .vInt 29902, [.vStr "countyname"], .vStr "geom", .vStr "countyname",
      []⟩) = .error (.keyError "filter_values") :=
  ⟨c6_url_assembly.1 _ (by rfl),
   c6_url_assembly.2.1 _ (by rfl) (by rfl),
   c6_url_assembly.2.2.1 _,
   c6_url_assembly.2.2.2 _ (by rfl)⟩
